import Mathlib

/-!
# Verification of the slide-sequence editor and geometry engine

This development embeds, as executable Lean functions, the slide-sequence
operations of `src/utils/presentation_utils.py` (move, swap, reorder, delete,
batch delete, duplicate) and the geometry operations of
`src/tools/shape_alignment_tools.py` (align, distribute, overlap detection),
and proves the specified properties about them.

Modelling conventions:
* A deck is a `List α` of opaque slide references; the XML id-list
  (`presentation.slides._sldIdLst`) is an ordered list, and `remove`/`insert`
  on it are `List.eraseIdx`/`List.insertIdx`.
* Python `int` indices are embedded as `Int` (they may be negative, and the
  source validates `i < 0`); after validation they are converted with `toNat`.
* Python `raise ValueError(msg)` is `Except.error msg`; the result dictionary
  of a successful call is a structure.
* Python's stable `sorted` is `List.insertionSort`: both are stable sorts,
  and a stable sort's output is uniquely determined by the key order, so they
  agree on every input.
* Shape geometry (`left`, `top`, `width`, `height`) is in integer EMU as in
  python-pptx.  In `align_shapes` and `distribute_shapes_evenly` the float
  arithmetic is embedded as exact rational (`ℚ`) arithmetic (the quantities
  those paths compare or truncate are separated at a granularity far coarser
  than a double's rounding error at any realistic coordinate magnitude), and
  Python `int(x)` truncation toward zero is `ratTrunc`.
* `detect_overlapping_elements` compares converted inch values with strict
  inequalities, where a double's rounding is observable (`0.1 + 0.2 > 0.3`
  in binary64), so there the float arithmetic is embedded faithfully: `fl`
  rounds an exact rational to IEEE-754 binary64 (round to nearest, ties to
  even, 53 significant bits; the exponent is unbounded, which coincides with
  binary64 on the whole normal range), and every float operation of that
  source path is one `fl` application.
-/

namespace PPTX

/-! ## Deck model: `src/utils/presentation_utils.py` -/

/-- The remove/insert step at the heart of `move_slide`:
`xml_slides.remove(slide_elem)` followed by `xml_slides.insert(to_index, slide_elem)`
where `slide_elem = xml_slides[from_index]`. -/
def moveL {α : Type} [Inhabited α] (deck : List α) (f t : Nat) : List α :=
  (deck.eraseIdx f).insertIdx t (deck.getD f default)

instance {ε α : Type} [DecidableEq ε] [DecidableEq α] : DecidableEq (Except ε α) := fun x y =>
  match x, y with
  | .error a, .error b =>
      if h : a = b then isTrue (congrArg Except.error h)
      else isFalse (fun hc => h (Except.error.inj hc))
  | .error _, .ok _ => isFalse (fun hc => Except.noConfusion hc)
  | .ok _, .error _ => isFalse (fun hc => Except.noConfusion hc)
  | .ok a, .ok b =>
      if h : a = b then isTrue (congrArg Except.ok h)
      else isFalse (fun hc => h (Except.ok.inj hc))

/-- Successful result dictionary of `move_slide`. -/
structure MoveResult (α : Type) where
  deck : List α
  message : String
  from_index : Int
  to_index : Int
deriving Repr, DecidableEq

/-- `move_slide(presentation, from_index, to_index)`
(`src/utils/presentation_utils.py`, lines 225-273). -/
def move_slide {α : Type} [Inhabited α] (deck : List α) (from_index to_index : Int) :
    Except String (MoveResult α) :=
  let total_slides : Int := deck.length
  if from_index < 0 ∨ from_index ≥ total_slides then
    .error ("Invalid from_index: " ++ toString from_index ++ ". Must be 0-" ++
      toString (total_slides - 1))
  else if to_index < 0 ∨ to_index ≥ total_slides then
    .error ("Invalid to_index: " ++ toString to_index ++ ". Must be 0-" ++
      toString (total_slides - 1))
  else if from_index = to_index then
    .ok { deck := deck, message := "No move needed - indices are the same",
          from_index := from_index, to_index := to_index }
  else
    .ok { deck := moveL deck from_index.toNat to_index.toNat,
          message := "Moved slide from position " ++ toString from_index ++ " to " ++
            toString to_index,
          from_index := from_index, to_index := to_index }

/-- Successful result dictionary of `swap_slides`. -/
structure SwapResult (α : Type) where
  deck : List α
  message : String
  index_a : Int
  index_b : Int
deriving Repr, DecidableEq

/-- `swap_slides(presentation, index_a, index_b)`
(`src/utils/presentation_utils.py`, lines 276-319): two composed `move_slide`
calls, higher index moved first when `index_a > index_b`. -/
def swap_slides {α : Type} [Inhabited α] (deck : List α) (index_a index_b : Int) :
    Except String (SwapResult α) :=
  let total_slides : Int := deck.length
  if index_a < 0 ∨ index_a ≥ total_slides then
    .error ("Invalid index_a: " ++ toString index_a ++ ". Must be 0-" ++
      toString (total_slides - 1))
  else if index_b < 0 ∨ index_b ≥ total_slides then
    .error ("Invalid index_b: " ++ toString index_b ++ ". Must be 0-" ++
      toString (total_slides - 1))
  else if index_a = index_b then
    .ok { deck := deck, message := "No swap needed - indices are the same",
          index_a := index_a, index_b := index_b }
  else if index_a > index_b then do
    let r1 ← move_slide deck index_a index_b
    let r2 ← move_slide r1.deck (index_b + 1) index_a
    .ok { deck := r2.deck,
          message := "Swapped slides at positions " ++ toString index_a ++ " and " ++
            toString index_b,
          index_a := index_a, index_b := index_b }
  else do
    let r1 ← move_slide deck index_b index_a
    let r2 ← move_slide r1.deck (index_a + 1) index_b
    .ok { deck := r2.deck,
          message := "Swapped slides at positions " ++ toString index_a ++ " and " ++
            toString index_b,
          index_a := index_a, index_b := index_b }

/-- Successful result dictionary of `reorder_slides`. -/
structure ReorderResult (α : Type) where
  deck : List α
  message : String
  new_order : List Int
  total_slides : Int
deriving Repr, DecidableEq

/-- `reorder_slides(presentation, new_order)`
(`src/utils/presentation_utils.py`, lines 322-362): validates the length and
that `sorted(new_order) == list(range(total_slides))`, then rebuilds the deck
as `deck[i] = old_deck[new_order[i]]`. -/
def reorder_slides {α : Type} [Inhabited α] (deck : List α) (new_order : List Int) :
    Except String (ReorderResult α) :=
  let total_slides : Int := deck.length
  if (new_order.length : Int) ≠ total_slides then
    .error ("new_order must contain " ++ toString total_slides ++ " indices, got " ++
      toString new_order.length)
  else if new_order.insertionSort (· ≤ ·) ≠ (List.range deck.length).map Int.ofNat then
    .error ("new_order must contain all indices 0-" ++ toString (total_slides - 1) ++
      " exactly once")
  else
    .ok { deck := new_order.map (fun idx => deck.getD idx.toNat default),
          message := "Reordered " ++ toString total_slides ++ " slides",
          new_order := new_order, total_slides := total_slides }

/-- Successful result dictionary of `delete_slide`. -/
structure DeleteResult (α : Type) where
  deck : List α
  message : String
  deleted_index : Int
  remaining_slides : Int
deriving Repr, DecidableEq

/-- `delete_slide(presentation, slide_index)`
(`src/utils/presentation_utils.py`, lines 367-396). -/
def delete_slide {α : Type} [Inhabited α] (deck : List α) (slide_index : Int) :
    Except String (DeleteResult α) :=
  let total_slides : Int := deck.length
  if slide_index < 0 ∨ slide_index ≥ total_slides then
    .error ("Invalid slide_index: " ++ toString slide_index ++ ". Must be 0-" ++
      toString (total_slides - 1))
  else
    let deck2 := deck.eraseIdx slide_index.toNat
    .ok { deck := deck2,
          message := "Deleted slide at index " ++ toString slide_index,
          deleted_index := slide_index, remaining_slides := deck2.length }

/-- Successful result dictionary of `delete_slides`. -/
structure DeleteManyResult (α : Type) where
  deck : List α
  message : String
  deleted_count : Nat
  requested_count : Nat
  remaining_slides : Int
deriving Repr, DecidableEq

/-- The deletion loop of `delete_slides`: each `delete_slide` call sits in
`try/except`, a failing deletion is skipped and the loop continues. -/
def deleteLoop {α : Type} [Inhabited α] (start : List α × Nat) (sorted_indices : List Int) :
    List α × Nat :=
  sorted_indices.foldl
    (fun acc idx =>
      match delete_slide acc.1 idx with
      | .ok r => (r.deck, acc.2 + 1)
      | .error _ => acc)
    start

/-- `delete_slides(presentation, slide_indices)`
(`src/utils/presentation_utils.py`, lines 399-440): validates all indices,
rejects duplicates (`len(slide_indices) != len(set(slide_indices))`), then
deletes in descending index order, tolerating per-item failure. -/
def delete_slides {α : Type} [Inhabited α] (deck : List α) (slide_indices : List Int) :
    Except String (DeleteManyResult α) :=
  let total_slides : Int := deck.length
  match slide_indices.find? (fun idx => decide (idx < 0 ∨ idx ≥ total_slides)) with
  | some idx =>
      .error ("Invalid slide index: " ++ toString idx ++ ". Must be 0-" ++
        toString (total_slides - 1))
  | none =>
      if slide_indices.length ≠ slide_indices.dedup.length then
        .error "Duplicate indices found in slide_indices"
      else
        let sorted_indices := slide_indices.insertionSort (· ≥ ·)
        let result := deleteLoop (deck, 0) sorted_indices
        .ok { deck := result.1,
              message := "Deleted " ++ toString result.2 ++ " slides",
              deleted_count := result.2,
              requested_count := slide_indices.length,
              remaining_slides := result.1.length }

/-- Successful result dictionary of `duplicate_slide`. -/
structure DuplicateResult (α : Type) where
  deck : List α
  message : String
  original_index : Int
  new_index : Int
deriving Repr, DecidableEq

/-- `duplicate_slide(presentation, slide_index, insert_position)`
(`src/utils/presentation_utils.py`, lines 445-493).  The clone produced by
`presentation.slides.add_slide(slide_layout)` plus the per-shape best-effort
copy is an opaque new reference here, passed in as `clone`; `add_slide`
appends it at the end of the deck, after which at most one `move_slide`
relocates it. -/
def duplicate_slide {α : Type} [Inhabited α] (deck : List α) (clone : α) (slide_index : Int)
    (insert_position : Option Int) : Except String (DuplicateResult α) :=
  let total_slides : Int := deck.length
  if slide_index < 0 ∨ slide_index ≥ total_slides then
    .error ("Invalid slide_index: " ++ toString slide_index ++ ". Must be 0-" ++
      toString (total_slides - 1))
  else
    -- `if insert_position is None: insert_position = slide_index + 1`
    -- `elif insert_position < 0 or insert_position > total_slides: raise ...`
    let posCheck : Except String Int :=
      match insert_position with
      | none => .ok (slide_index + 1)
      | some p =>
          if p < 0 ∨ p > total_slides then
            .error ("Invalid insert_position: " ++ toString p ++ ". Must be 0-" ++
              toString total_slides)
          else .ok p
    match posCheck with
    | .error e => .error e
    | .ok p => do
        let deck2 := deck ++ [clone]
        let new_slide_index : Int := deck2.length - 1
        if p ≠ new_slide_index then do
          let r ← move_slide deck2 new_slide_index p
          .ok { deck := r.deck,
                message := "Duplicated slide " ++ toString slide_index ++ " to position " ++
                  toString p,
                original_index := slide_index, new_index := p }
        else
          .ok { deck := deck2,
                message := "Duplicated slide " ++ toString slide_index ++ " to position " ++
                  toString new_slide_index,
                original_index := slide_index, new_index := new_slide_index }

/-! ## Shape geometry model: `src/tools/shape_alignment_tools.py` -/

/-- Shape geometry in integer EMU (914400 per inch), as stored by python-pptx. -/
structure Shape where
  left : Int
  top : Int
  width : Int
  height : Int
deriving Repr, DecidableEq

instance : Inhabited Shape := ⟨⟨0, 0, 0, 0⟩⟩

/-- 1 inch = 914400 native units. -/
def EMU : ℚ := 914400

/-- Python `int(x)` truncation toward zero on an exact rational. -/
def ratTrunc (q : ℚ) : Int := if q < 0 then ⌈q⌉ else ⌊q⌋

/-- In-place write of a shape list at the selected slide positions: models the
Python loops that assign to the (aliased) shape objects fetched by
`[slide.shapes[i] for i in shape_indices]`.  Each branch of `align_shapes`
writes a value that depends only on the shape itself and on aggregates
computed before the loop, so replaying the assignment at every selected
position reproduces the in-place mutation, duplicates included. -/
def updateSelected (slide_shapes : List Shape) (shape_indices : List Int)
    (f : Shape → Shape) : List Shape :=
  slide_shapes.mapIdx fun p s => if shape_indices.contains (p : Int) then f s else s

/-- Successful result of `align_shapes` (the mutated shape list plus the echo
fields of the returned dictionary). -/
structure AlignResult where
  shapes : List Shape
  alignment_type : String
  shape_indices : List Int
deriving Repr, DecidableEq

/-- `align_shapes(slide_index, shape_indices, alignment_type)`
(`src/tools/shape_alignment_tools.py`, lines 14-135), from the point where the
slide's shape list is in hand (presentation registry and slide lookup are the
transport layer, outside this core).  Validation order follows the source:
shape indices, then the minimum count of 2, then the alignment type. -/
def align_shapes (slide_shapes : List Shape) (shape_indices : List Int)
    (alignment_type : String) : Except String AlignResult :=
  let n : Int := slide_shapes.length
  match shape_indices.find? (fun i => decide (i < 0 ∨ i ≥ n)) with
  | some i =>
      .error ("Invalid shape index: " ++ toString i ++ ". Available shapes: 0-" ++
        toString (n - 1))
  | none =>
  if shape_indices.length < 2 then
    .error "At least 2 shapes are required for alignment"
  else if ["top", "bottom", "left", "right", "center_horizontal", "center_vertical",
      "center"].contains alignment_type = false then
    .error ("Invalid alignment type: " ++ alignment_type ++
      ". Valid types: top, bottom, left, right, center_horizontal, center_vertical, center")
  else
    let shapes := shape_indices.map (fun i => slide_shapes.getD i.toNat default)
    let updated :=
      if alignment_type = "top" then
        let min_top := ((shapes.map Shape.top).min?).getD 0
        updateSelected slide_shapes shape_indices (fun s => { s with top := min_top })
      else if alignment_type = "bottom" then
        let max_bottom := ((shapes.map (fun s => s.top + s.height)).max?).getD 0
        updateSelected slide_shapes shape_indices (fun s => { s with top := max_bottom - s.height })
      else if alignment_type = "left" then
        let min_left := ((shapes.map Shape.left).min?).getD 0
        updateSelected slide_shapes shape_indices (fun s => { s with left := min_left })
      else if alignment_type = "right" then
        let max_right := ((shapes.map (fun s => s.left + s.width)).max?).getD 0
        updateSelected slide_shapes shape_indices (fun s => { s with left := max_right - s.width })
      else if alignment_type = "center_horizontal" then
        -- the mean of the horizontal centers, computed once before the loop
        let center_x : ℚ := (shapes.map (fun s => (s.left : ℚ) + (s.width : ℚ) / 2)).sum /
          (shapes.length : ℚ)
        updateSelected slide_shapes shape_indices
          (fun s => { s with left := ratTrunc (center_x - (s.width : ℚ) / 2) })
      else if alignment_type = "center_vertical" then
        let center_y : ℚ := (shapes.map (fun s => (s.top : ℚ) + (s.height : ℚ) / 2)).sum /
          (shapes.length : ℚ)
        updateSelected slide_shapes shape_indices
          (fun s => { s with top := ratTrunc (center_y - (s.height : ℚ) / 2) })
      else
        -- "center": both means computed once, before either coordinate is written
        let center_x : ℚ := (shapes.map (fun s => (s.left : ℚ) + (s.width : ℚ) / 2)).sum /
          (shapes.length : ℚ)
        let center_y : ℚ := (shapes.map (fun s => (s.top : ℚ) + (s.height : ℚ) / 2)).sum /
          (shapes.length : ℚ)
        updateSelected slide_shapes shape_indices
          (fun s => { s with left := ratTrunc (center_x - (s.width : ℚ) / 2),
                             top := ratTrunc (center_y - (s.height : ℚ) / 2) })
    .ok { shapes := updated, alignment_type := alignment_type, shape_indices := shape_indices }

/-- Successful result of `distribute_shapes_evenly`. -/
structure DistributeResult where
  shapes : List Shape
  direction : String
  shape_indices : List Int
deriving Repr, DecidableEq

/-- The horizontal placement walk of `distribute_shapes_evenly`: each shape in
sorted order gets `left = int(current_x)`, then the cursor advances by
`shape.width + gap`. Produces the `(slide position, new left)` assignments. -/
def placeLefts (gap : ℚ) : ℚ → List (Shape × Int) → List (Int × Int)
  | _, [] => []
  | current_x, (s, i) :: rest =>
      (i, ratTrunc current_x) :: placeLefts gap (current_x + (s.width : ℚ) + gap) rest

/-- The vertical placement walk: `top = int(current_y)`, cursor advances by
`shape.height + gap`. -/
def placeTops (gap : ℚ) : ℚ → List (Shape × Int) → List (Int × Int)
  | _, [] => []
  | current_y, (s, i) :: rest =>
      (i, ratTrunc current_y) :: placeTops gap (current_y + (s.height : ℚ) + gap) rest

/-- Write `left := v` at slide position `i`. -/
def setLeftAt (slide_shapes : List Shape) (i : Int) (v : Int) : List Shape :=
  slide_shapes.mapIdx fun p s => if (p : Int) = i then { s with left := v } else s

/-- Write `top := v` at slide position `i`. -/
def setTopAt (slide_shapes : List Shape) (i : Int) (v : Int) : List Shape :=
  slide_shapes.mapIdx fun p s => if (p : Int) = i then { s with top := v } else s

/-- Replay a list of `left` assignments on the slide's shape list. -/
def applyLefts (slide_shapes : List Shape) (ps : List (Int × Int)) : List Shape :=
  ps.foldl (fun acc p => setLeftAt acc p.1 p.2) slide_shapes

/-- Replay a list of `top` assignments on the slide's shape list. -/
def applyTops (slide_shapes : List Shape) (ps : List (Int × Int)) : List Shape :=
  ps.foldl (fun acc p => setTopAt acc p.1 p.2) slide_shapes

/-- `distribute_shapes_evenly(slide_index, shape_indices, direction)`
(`src/tools/shape_alignment_tools.py`, lines 156-276).  Python's stable
`sorted(zip(shapes, shape_indices), key=lambda x: x[0].left)` is
`insertionSort` by the same key; `gap` is float (here exact `ℚ`) division and
may be negative; each placement truncates the cursor with `int(...)`. -/
def distribute_shapes_evenly (slide_shapes : List Shape) (shape_indices : List Int)
    (direction : String) : Except String DistributeResult :=
  let n : Int := slide_shapes.length
  match shape_indices.find? (fun i => decide (i < 0 ∨ i ≥ n)) with
  | some i =>
      .error ("Invalid shape index: " ++ toString i ++ ". Available shapes: 0-" ++
        toString (n - 1))
  | none =>
  if shape_indices.length < 3 then
    .error "At least 3 shapes are required for distribution"
  else if direction ≠ "horizontal" ∧ direction ≠ "vertical" then
    .error ("Invalid direction: " ++ direction ++
      ". Valid directions: horizontal, vertical")
  else
    let shapesSel := shape_indices.map (fun i => (slide_shapes.getD i.toNat default, i))
    if direction = "horizontal" then
      let sorted_shapes := shapesSel.insertionSort (fun x y => x.1.left ≤ y.1.left)
      let leftmost : ℚ := ((sorted_shapes.headD default).1.left : ℚ)
      let rightmost : ℚ := ((sorted_shapes.getLastD default).1.left : ℚ) +
        ((sorted_shapes.getLastD default).1.width : ℚ)
      let total_width : ℚ := rightmost - leftmost
      let total_shape_width : ℚ := ((sorted_shapes.map (fun x => x.1.width)).sum : ℚ)
      let gap : ℚ :=
        if sorted_shapes.length > 1 then
          (total_width - total_shape_width) / ((sorted_shapes.length : ℚ) - 1)
        else 0
      let updated := applyLefts slide_shapes (placeLefts gap leftmost sorted_shapes)
      .ok { shapes := updated, direction := direction, shape_indices := shape_indices }
    else
      let sorted_shapes := shapesSel.insertionSort (fun x y => x.1.top ≤ y.1.top)
      let topmost : ℚ := ((sorted_shapes.headD default).1.top : ℚ)
      let bottommost : ℚ := ((sorted_shapes.getLastD default).1.top : ℚ) +
        ((sorted_shapes.getLastD default).1.height : ℚ)
      let total_height : ℚ := bottommost - topmost
      let total_shape_height : ℚ := ((sorted_shapes.map (fun x => x.1.height)).sum : ℚ)
      let gap : ℚ :=
        if sorted_shapes.length > 1 then
          (total_height - total_shape_height) / ((sorted_shapes.length : ℚ) - 1)
        else 0
      let updated := applyTops slide_shapes (placeTops gap topmost sorted_shapes)
      .ok { shapes := updated, direction := direction, shape_indices := shape_indices }

/-- One reported overlapping pair, with the intersection rectangle and area. -/
structure OverlapEntry where
  shape1_index : Nat
  shape2_index : Nat
  overlap_area : ℚ
  overlap_left : ℚ
  overlap_top : ℚ
  overlap_width : ℚ
  overlap_height : ℚ
deriving Repr, DecidableEq

/-- Round to the nearest integer, ties to even: the rounding step of
IEEE-754 round-to-nearest on a value scaled into the significand window. -/
def roundHalfEven (x : ℚ) : Int :=
  if x - ⌊x⌋ < 1/2 then ⌊x⌋
  else if 1/2 < x - ⌊x⌋ then ⌊x⌋ + 1
  else if ⌊x⌋ % 2 = 0 then ⌊x⌋ else ⌊x⌋ + 1

/-- The exact value of a rational rounded to IEEE-754 binary64 (the Python
float): round to nearest, ties to even, at 53 significant bits.  The exponent
is unbounded, which coincides with binary64 on the whole normal range (every
realistic coordinate); 0 maps to 0. -/
def fl (q : ℚ) : ℚ :=
  if q = 0 then 0
  else (roundHalfEven (q * (2 : ℚ) ^ (52 - Int.log 2 |q|)) : ℚ) *
    (2 : ℚ) ^ (Int.log 2 |q| - 52)

/-- `shape.left / 914400` computed in floats: one correctly rounded
division. -/
def inchL (s : Shape) : ℚ := fl ((s.left : ℚ) / EMU)

/-- `shape.top / 914400` computed in floats. -/
def inchT (s : Shape) : ℚ := fl ((s.top : ℚ) / EMU)

/-- `shape.width / 914400` computed in floats. -/
def inchW (s : Shape) : ℚ := fl ((s.width : ℚ) / EMU)

/-- `shape.height / 914400` computed in floats. -/
def inchH (s : Shape) : ℚ := fl ((s.height : ℚ) / EMU)

/-- `s_right = s_left + (shape.width / 914400)`: the float sum of the two
rounded quotients, rounded again. -/
def inchR (s : Shape) : ℚ := fl (inchL s + inchW s)

/-- `s_bottom = s_top + (shape.height / 914400)` in floats. -/
def inchB (s : Shape) : ℚ := fl (inchT s + inchH s)

/-- The pairwise test of `detect_overlapping_elements`: the pair overlaps iff
every one of the four half-plane separation tests (with non-strict
comparisons on the binary64 inch values) fails. -/
def overlapsB (shape1 shape2 : Shape) : Bool :=
  ! (decide (inchR shape1 ≤ inchL shape2 ∨ inchL shape1 ≥ inchR shape2 ∨
      inchB shape1 ≤ inchT shape2 ∨ inchT shape1 ≥ inchB shape2))

/-- The entry appended for an overlapping pair `(i, j)`: intersection
rectangle by float max/min of the edges (exact), float subtraction and
multiplication (each rounded) for its extents and area. -/
def mkOverlapEntry (i j : Nat) (shape1 shape2 : Shape) : OverlapEntry :=
  let overlap_left := max (inchL shape1) (inchL shape2)
  let overlap_top := max (inchT shape1) (inchT shape2)
  let overlap_right := min (inchR shape1) (inchR shape2)
  let overlap_bottom := min (inchB shape1) (inchB shape2)
  let overlap_width := fl (overlap_right - overlap_left)
  let overlap_height := fl (overlap_bottom - overlap_top)
  { shape1_index := i, shape2_index := j,
    overlap_area := fl (overlap_width * overlap_height),
    overlap_left := overlap_left, overlap_top := overlap_top,
    overlap_width := overlap_width, overlap_height := overlap_height }

/-- Result of `detect_overlapping_elements`. -/
structure DetectResult where
  total_shapes : Nat
  overlapping_pairs : Nat
  overlaps : List OverlapEntry
  has_overlaps : Bool
deriving Repr, DecidableEq

/-- `detect_overlapping_elements(slide_index)`
(`src/tools/shape_alignment_tools.py`, lines 281-360): O(n²) scan over the
pairs `i < j` of all shapes on the slide. -/
def detect_overlapping_elements (slide_shapes : List Shape) : DetectResult :=
  let overlaps := (List.range slide_shapes.length).flatMap (fun i =>
    (List.range' (i + 1) (slide_shapes.length - (i + 1))).filterMap (fun j =>
      let shape1 := slide_shapes.getD i default
      let shape2 := slide_shapes.getD j default
      if overlapsB shape1 shape2 then some (mkOverlapEntry i j shape1 shape2) else none))
  { total_shapes := slide_shapes.length,
    overlapping_pairs := overlaps.length,
    overlaps := overlaps,
    has_overlaps := decide (0 < overlaps.length) }

/-! ## List infrastructure lemmas -/

section ListLemmas

variable {α : Type}

theorem getElem?_insertIdx_spec (n : Nat) (x : α) (l : List α) (hn : n ≤ l.length) (j : Nat) :
    (l.insertIdx n x)[j]? =
      if j < n then l[j]? else if j = n then some x else l[j - 1]? := by
  rcases Nat.lt_trichotomy j n with h | h | h
  · rw [if_pos h]
    have hj : j < l.length := Nat.lt_of_lt_of_le h hn
    rw [List.getElem?_eq_getElem (by rw [List.length_insertIdx n l hn]; omega),
      List.getElem?_eq_getElem hj, List.getElem_insertIdx_of_lt l x n j h hj]
  · subst h
    rw [if_neg (by omega), if_pos rfl,
      List.getElem?_eq_getElem (by rw [List.length_insertIdx j l hn]; omega),
      List.getElem_insertIdx_self l x j hn]
  · rw [if_neg (by omega), if_neg (by omega)]
    obtain ⟨k, rfl⟩ : ∃ k, j = n + k + 1 := ⟨j - n - 1, by omega⟩
    have hjm : n + k + 1 - 1 = n + k := by omega
    rw [hjm]
    by_cases hk : n + k < l.length
    · rw [List.getElem?_eq_getElem (by rw [List.length_insertIdx n l hn]; omega),
        List.getElem?_eq_getElem hk, List.getElem_insertIdx_add_succ l x n k hk]
    · rw [List.getElem?_eq_none (by rw [List.length_insertIdx n l hn]; omega),
        List.getElem?_eq_none (by omega)]

theorem length_moveL [Inhabited α] (l : List α) (f t : Nat) (hf : f < l.length) (ht : t < l.length) :
    (PPTX.moveL l f t).length = l.length := by
  unfold PPTX.moveL
  rw [List.length_insertIdx t _ (by rw [List.length_eraseIdx_of_lt hf]; omega),
    List.length_eraseIdx_of_lt hf]
  omega

theorem getElem?_moveL [Inhabited α] (l : List α) (f t : Nat) (hf : f < l.length) (ht : t < l.length)
    (j : Nat) :
    (PPTX.moveL l f t)[j]? =
      if j < t then (if j < f then l[j]? else l[j + 1]?)
      else if j = t then l[f]?
      else if j - 1 < f then l[j - 1]? else l[j]? := by
  unfold PPTX.moveL
  have he : t ≤ (l.eraseIdx f).length := by rw [List.length_eraseIdx_of_lt hf]; omega
  rw [getElem?_insertIdx_spec t _ _ he j]
  simp only [List.getElem?_eraseIdx]
  have hgf : some (l.getD f default) = l[f]? := by
    rw [List.getD_eq_getElem?_getD, List.getElem?_eq_getElem hf]
    rfl
  split_ifs <;> first
    | rfl
    | exact hgf
    | omega
    | (congr 1; omega)

/-- Moving a slide onto its own position is the identity. -/
theorem moveL_self [Inhabited α] (l : List α) (f : Nat) (hf : f < l.length) : PPTX.moveL l f f = l := by
  apply List.ext_getElem?
  intro j
  rw [getElem?_moveL l f f hf hf j]
  split_ifs <;> first
    | rfl
    | omega
    | (congr 1; omega)

/-- `moveL` is undone by the reverse `moveL`. -/
theorem moveL_moveL [Inhabited α] (l : List α) (f t : Nat) (hf : f < l.length) (ht : t < l.length) :
    PPTX.moveL (PPTX.moveL l f t) t f = l := by
  have h1 : (PPTX.moveL l f t).getD t default = l.getD f default := by
    rw [List.getD_eq_getElem?_getD, getElem?_moveL l f t hf ht t, if_neg (by omega), if_pos rfl,
      List.getD_eq_getElem?_getD]
  have h2 : (PPTX.moveL l f t).eraseIdx t = l.eraseIdx f := by
    unfold PPTX.moveL
    exact List.eraseIdx_insertIdx t (l.eraseIdx f)
  show ((PPTX.moveL l f t).eraseIdx t).insertIdx f ((PPTX.moveL l f t).getD t default) = l
  rw [h1, h2]
  exact moveL_self l f hf

end ListLemmas

/-! ## Unfolding lemmas for the deck operations -/

section DeckLemmas

variable {α : Type} [Inhabited α]

theorem ok_bind {ε β γ : Type} (x : β) (f : β → Except ε γ) :
    (Except.ok x >>= f : Except ε γ) = f x := rfl

theorem move_slide_invalid_from (deck : List α) (f t : Int)
    (h : f < 0 ∨ f ≥ (deck.length : Int)) :
    move_slide deck f t = .error ("Invalid from_index: " ++ toString f ++ ". Must be 0-" ++
      toString ((deck.length : Int) - 1)) := by
  simp only [move_slide]
  rw [if_pos h]

theorem move_slide_invalid_to (deck : List α) (f t : Int)
    (hf0 : 0 ≤ f) (hf1 : f < (deck.length : Int))
    (h : t < 0 ∨ t ≥ (deck.length : Int)) :
    move_slide deck f t = .error ("Invalid to_index: " ++ toString t ++ ". Must be 0-" ++
      toString ((deck.length : Int) - 1)) := by
  simp only [move_slide]
  rw [if_neg (by omega), if_pos h]

theorem move_slide_self (deck : List α) (f : Int) (hf0 : 0 ≤ f)
    (hf1 : f < (deck.length : Int)) :
    move_slide deck f f =
      .ok { deck := deck, message := "No move needed - indices are the same",
            from_index := f, to_index := f } := by
  simp only [move_slide]
  rw [if_neg (by omega), if_neg (by omega), if_pos trivial]

theorem move_slide_ok (deck : List α) (f t : Int) (hf0 : 0 ≤ f)
    (hf1 : f < (deck.length : Int)) (ht0 : 0 ≤ t) (ht1 : t < (deck.length : Int))
    (hne : f ≠ t) :
    move_slide deck f t =
      .ok { deck := moveL deck f.toNat t.toNat,
            message := "Moved slide from position " ++ toString f ++ " to " ++ toString t,
            from_index := f, to_index := t } := by
  simp only [move_slide]
  rw [if_neg (by omega), if_neg (by omega), if_neg hne]

/-- Pointwise description of the two-move composition used by `swap_slides`
when the first index `na` is the larger one: it exchanges positions `na` and
`nb` and fixes every other position. -/
theorem getElem?_swapCore (l : List α) (na nb : Nat) (hb : nb < na) (ha : na < l.length)
    (j : Nat) :
    (if nb + 1 = na then moveL l na nb
     else moveL (moveL l na nb) (nb + 1) na)[j]? =
      if j = na then l[nb]? else if j = nb then l[na]? else l[j]? := by
  have htb : nb < l.length := by omega
  have hlen := length_moveL l na nb ha htb
  by_cases hadj : nb + 1 = na
  · rw [if_pos hadj, getElem?_moveL l na nb ha htb j]
    split_ifs <;> first
      | rfl
      | omega
      | (congr 1; omega)
  · rw [if_neg hadj,
      getElem?_moveL (moveL l na nb) (nb + 1) na (by omega) (by omega) j]
    simp only [getElem?_moveL l na nb ha htb]
    split_ifs <;> first
      | rfl
      | omega

theorem swapCore_length (l : List α) (na nb : Nat) (hb : nb < na) (ha : na < l.length) :
    (if nb + 1 = na then moveL l na nb
     else moveL (moveL l na nb) (nb + 1) na).length = l.length := by
  have h1 := length_moveL l na nb ha (by omega)
  split_ifs
  · exact h1
  · rw [length_moveL (moveL l na nb) (nb + 1) na (by rw [h1]; omega) (by rw [h1]; omega), h1]

theorem swapCore_getElem_hi (l : List α) (na nb : Nat) (hb : nb < na) (ha : na < l.length) :
    (if nb + 1 = na then moveL l na nb
     else moveL (moveL l na nb) (nb + 1) na)[na]? = l[nb]? := by
  rw [getElem?_swapCore l na nb hb ha na, if_pos rfl]

theorem swapCore_getElem_lo (l : List α) (na nb : Nat) (hb : nb < na) (ha : na < l.length) :
    (if nb + 1 = na then moveL l na nb
     else moveL (moveL l na nb) (nb + 1) na)[nb]? = l[na]? := by
  rw [getElem?_swapCore l na nb hb ha nb, if_neg (by omega), if_pos rfl]

theorem swapCore_getElem_other (l : List α) (na nb : Nat) (hb : nb < na) (ha : na < l.length)
    (j : Nat) (hna : j ≠ na) (hnb : j ≠ nb) :
    (if nb + 1 = na then moveL l na nb
     else moveL (moveL l na nb) (nb + 1) na)[j]? = l[j]? := by
  rw [getElem?_swapCore l na nb hb ha j, if_neg hna, if_neg hnb]

/-- The `index_a > index_b` path of `swap_slides`, reduced to its two `moveL`
steps (the second `move_slide` is a no-op exactly when the indices are
adjacent). -/
theorem swap_slides_gt (deck : List α) (a b : Int) (hb0 : 0 ≤ b) (hab : b < a)
    (ha1 : a < (deck.length : Int)) :
    swap_slides deck a b =
      .ok { deck := if b.toNat + 1 = a.toNat then moveL deck a.toNat b.toNat
                    else moveL (moveL deck a.toNat b.toNat) (b.toNat + 1) a.toNat,
            message := "Swapped slides at positions " ++ toString a ++ " and " ++ toString b,
            index_a := a, index_b := b } := by
  have ha0 : 0 ≤ a := by omega
  have hb1 : b < (deck.length : Int) := by omega
  have hlen1 : (moveL deck a.toNat b.toNat).length = deck.length :=
    length_moveL deck a.toNat b.toNat (by omega) (by omega)
  simp only [swap_slides]
  rw [if_neg (by omega), if_neg (by omega), if_neg (show ¬ a = b by omega),
    if_pos (show a > b from hab)]
  simp only [move_slide_ok deck a b ha0 ha1 hb0 hb1 (by omega), ok_bind]
  by_cases hadj : b + 1 = a
  · simp only [hadj, move_slide_self _ a ha0 (by rw [hlen1]; exact ha1), ok_bind,
      if_pos (show b.toNat + 1 = a.toNat by omega)]
  · simp only [move_slide_ok _ (b + 1) a (by omega) (by rw [hlen1]; omega) ha0
      (by rw [hlen1]; exact ha1) (by omega), ok_bind,
      show (b + 1).toNat = b.toNat + 1 by omega,
      if_neg (show ¬ b.toNat + 1 = a.toNat by omega)]

/-- The `index_a < index_b` path of `swap_slides`. -/
theorem swap_slides_lt (deck : List α) (a b : Int) (ha0 : 0 ≤ a) (hab : a < b)
    (hb1 : b < (deck.length : Int)) :
    swap_slides deck a b =
      .ok { deck := if a.toNat + 1 = b.toNat then moveL deck b.toNat a.toNat
                    else moveL (moveL deck b.toNat a.toNat) (a.toNat + 1) b.toNat,
            message := "Swapped slides at positions " ++ toString a ++ " and " ++ toString b,
            index_a := a, index_b := b } := by
  have hb0 : 0 ≤ b := by omega
  have ha1 : a < (deck.length : Int) := by omega
  have hlen1 : (moveL deck b.toNat a.toNat).length = deck.length :=
    length_moveL deck b.toNat a.toNat (by omega) (by omega)
  simp only [swap_slides]
  rw [if_neg (by omega), if_neg (by omega), if_neg (show ¬ a = b by omega),
    if_neg (show ¬ a > b by omega)]
  simp only [move_slide_ok deck b a hb0 hb1 ha0 ha1 (by omega), ok_bind]
  by_cases hadj : a + 1 = b
  · simp only [hadj, move_slide_self _ b hb0 (by rw [hlen1]; exact hb1), ok_bind,
      if_pos (show a.toNat + 1 = b.toNat by omega)]
  · simp only [move_slide_ok _ (a + 1) b (by omega) (by rw [hlen1]; omega) hb0
      (by rw [hlen1]; exact hb1) (by omega), ok_bind,
      show (a + 1).toNat = a.toNat + 1 by omega,
      if_neg (show ¬ a.toNat + 1 = b.toNat by omega)]

end DeckLemmas

/-! ## Claim theorems for the sequence editor -/

section Claims

variable {α : Type} [Inhabited α]

/-- **C1**: for every deck and valid indices, `swap_slides` — implemented as
the two-`move_slide` composition `move(a,b); move(b+1,a)` when `a > b` and
`move(b,a); move(a+1,b)` when `a < b` — exchanges the references at positions
`a` and `b` and leaves every other position unchanged; `swap(a,a)` is a
no-op. -/
theorem swap_slides_spec (deck : List α) (a b : Int)
    (ha0 : 0 ≤ a) (ha1 : a < (deck.length : Int))
    (hb0 : 0 ≤ b) (hb1 : b < (deck.length : Int)) :
    ∃ r : SwapResult α, swap_slides deck a b = .ok r ∧
      r.index_a = a ∧ r.index_b = b ∧
      r.deck.length = deck.length ∧
      (a = b → r.deck = deck) ∧
      r.deck[a.toNat]? = deck[b.toNat]? ∧
      r.deck[b.toNat]? = deck[a.toNat]? ∧
      ∀ j : Nat, (j : Int) ≠ a → (j : Int) ≠ b → r.deck[j]? = deck[j]? := by
  by_cases hab : a = b
  · subst hab
    refine ⟨{ deck := deck, message := "No swap needed - indices are the same",
              index_a := a, index_b := a }, ?_, rfl, rfl, rfl, fun _ => rfl, rfl, rfl,
      fun j _ _ => rfl⟩
    simp only [swap_slides]
    rw [if_neg (by omega), if_neg (by omega)]
    simp
  · rcases lt_or_gt_of_ne hab with hlt | hgt
    · -- a < b: path `move(b, a)` then `move(a+1, b)`
      refine ⟨_, swap_slides_lt deck a b ha0 hlt hb1, rfl, rfl,
        swapCore_length deck b.toNat a.toNat (by omega) (by omega), fun h => absurd h hab,
        swapCore_getElem_lo deck b.toNat a.toNat (by omega) (by omega),
        swapCore_getElem_hi deck b.toNat a.toNat (by omega) (by omega),
        fun j hja hjb => swapCore_getElem_other deck b.toNat a.toNat (by omega) (by omega) j
          (by omega) (by omega)⟩
    · -- a > b: path `move(a, b)` then `move(b+1, a)`
      refine ⟨_, swap_slides_gt deck a b hb0 hgt ha1, rfl, rfl,
        swapCore_length deck a.toNat b.toNat (by omega) (by omega), fun h => absurd h hab,
        swapCore_getElem_hi deck a.toNat b.toNat (by omega) (by omega),
        swapCore_getElem_lo deck a.toNat b.toNat (by omega) (by omega),
        fun j hja hjb => swapCore_getElem_other deck a.toNat b.toNat (by omega) (by omega) j
          (by omega) (by omega)⟩

/-- Concrete check of `swap_slides_spec` on the specified scenario: 3 slides,
`swap(0, 2)` exchanges positions 0 and 2 and leaves position 1 unchanged. -/
theorem swap_slides_spec_witness :
    ((0 : Int) ≤ 0 ∧ (0 : Int) < (([10, 20, 30] : List Nat).length : Int) ∧
      (0 : Int) ≤ 2 ∧ (2 : Int) < (([10, 20, 30] : List Nat).length : Int)) ∧
    (∃ r : SwapResult Nat, swap_slides ([10, 20, 30] : List Nat) 0 2 = .ok r ∧
      r.index_a = 0 ∧ r.index_b = 2 ∧
      r.deck.length = ([10, 20, 30] : List Nat).length ∧
      ((0 : Int) = 2 → r.deck = [10, 20, 30]) ∧
      r.deck[(0 : Int).toNat]? = ([10, 20, 30] : List Nat)[(2 : Int).toNat]? ∧
      r.deck[(2 : Int).toNat]? = ([10, 20, 30] : List Nat)[(0 : Int).toNat]? ∧
      ∀ j : Nat, (j : Int) ≠ 0 → (j : Int) ≠ 2 →
        r.deck[j]? = ([10, 20, 30] : List Nat)[j]?) :=
  ⟨⟨by decide, by decide, by decide, by decide⟩,
    swap_slides_spec [10, 20, 30] 0 2 (by decide) (by decide) (by decide) (by decide)⟩

/-- **C3**: `move_slide` removes the reference at `from_index` and reinserts
it at `to_index` (on deck `[0,1,2,3,4]`, `move(4,1)` yields `[0,4,1,2,3]` and
the response echoes `from_index = 4`, `to_index = 1`), and for every pair of
valid indices `move(from,to)` immediately followed by `move(to,from)` restores
the original deck. -/
theorem move_slide_roundtrip (deck : List α) (f t : Int)
    (hf0 : 0 ≤ f) (hf1 : f < (deck.length : Int))
    (ht0 : 0 ≤ t) (ht1 : t < (deck.length : Int)) :
    (∃ r1 r2 : MoveResult α, move_slide deck f t = .ok r1 ∧
      r1.from_index = f ∧ r1.to_index = t ∧
      move_slide r1.deck t f = .ok r2 ∧ r2.deck = deck) ∧
    move_slide ([0, 1, 2, 3, 4] : List Nat) 4 1 =
      .ok { deck := [0, 4, 1, 2, 3], message := "Moved slide from position 4 to 1",
            from_index := 4, to_index := 1 } := by
  constructor
  · by_cases hft : f = t
    · subst hft
      exact ⟨_, _, move_slide_self deck f hf0 hf1, rfl, rfl,
        move_slide_self deck f hf0 hf1, rfl⟩
    · have hfN : f.toNat < deck.length := by omega
      have htN : t.toNat < deck.length := by omega
      have hlen1 := length_moveL deck f.toNat t.toNat hfN htN
      refine ⟨_, _, move_slide_ok deck f t hf0 hf1 ht0 ht1 hft, rfl, rfl,
        move_slide_ok (moveL deck f.toNat t.toNat) t f ht0 (by rw [hlen1]; exact ht1)
          hf0 (by rw [hlen1]; exact hf1) (Ne.symm hft), ?_⟩
      show moveL (moveL deck f.toNat t.toNat) t.toNat f.toNat = deck
      exact moveL_moveL deck f.toNat t.toNat hfN htN
  · rfl

/-- Concrete check of `move_slide_roundtrip` on the scenario deck. -/
theorem move_slide_roundtrip_witness :
    ((0 : Int) ≤ 4 ∧ (4 : Int) < (([0, 1, 2, 3, 4] : List Nat).length : Int) ∧
      (0 : Int) ≤ 1 ∧ (1 : Int) < (([0, 1, 2, 3, 4] : List Nat).length : Int)) ∧
    ((∃ r1 r2 : MoveResult Nat, move_slide ([0, 1, 2, 3, 4] : List Nat) 4 1 = .ok r1 ∧
      r1.from_index = 4 ∧ r1.to_index = 1 ∧
      move_slide r1.deck 1 4 = .ok r2 ∧ r2.deck = [0, 1, 2, 3, 4]) ∧
    move_slide ([0, 1, 2, 3, 4] : List Nat) 4 1 =
      .ok { deck := [0, 4, 1, 2, 3], message := "Moved slide from position 4 to 1",
            from_index := 4, to_index := 1 }) :=
  ⟨⟨by decide, by decide, by decide, by decide⟩,
    move_slide_roundtrip [0, 1, 2, 3, 4] 4 1 (by decide) (by decide) (by decide) (by decide)⟩

/-- **C2**: `reorder_slides` succeeds exactly when the permutation has the
deck's length and its sorted form equals `[0 .. len-1]` (so duplicates are
rejected), and on success `deck[i] = oldDeck[newOrder[i]]` for every `i`; a
validation failure raises an error (so the deck value is never rebuilt). -/
theorem reorder_slides_spec (deck : List α) (new_order : List Int) :
    ((∃ r : ReorderResult α, reorder_slides deck new_order = .ok r) ↔
      (new_order.length = deck.length ∧
        new_order.insertionSort (· ≤ ·) =
          (List.range deck.length).map Int.ofNat)) ∧
    (∀ r : ReorderResult α, reorder_slides deck new_order = .ok r →
      r.deck.length = deck.length ∧ new_order.Nodup ∧
      ∀ i : Nat, i < deck.length →
        r.deck[i]? = deck[(new_order.getD i 0).toNat]?) := by
  constructor
  · constructor
    · rintro ⟨r, hr⟩
      simp only [reorder_slides] at hr
      by_cases h1 : (new_order.length : Int) ≠ (deck.length : Int)
      · rw [if_pos h1] at hr
        exact absurd hr (by simp)
      · rw [if_neg h1] at hr
        by_cases h2 : new_order.insertionSort (· ≤ ·) ≠
            (List.range deck.length).map Int.ofNat
        · rw [if_pos h2] at hr
          exact absurd hr (by simp)
        · exact ⟨by omega, not_not.mp h2⟩
    · rintro ⟨h1, h2⟩
      simp only [reorder_slides]
      rw [if_neg (by omega), if_neg (not_not_intro h2)]
      exact ⟨_, rfl⟩
  · intro r hr
    simp only [reorder_slides] at hr
    by_cases h1 : (new_order.length : Int) ≠ (deck.length : Int)
    · rw [if_pos h1] at hr
      exact absurd hr (by simp)
    · rw [if_neg h1] at hr
      by_cases h2 : new_order.insertionSort (· ≤ ·) ≠
          (List.range deck.length).map Int.ofNat
      · rw [if_pos h2] at hr
        exact absurd hr (by simp)
      · rw [if_neg h2] at hr
        have hlen : new_order.length = deck.length := by omega
        have hsort := not_not.mp h2
        have hperm : List.Perm new_order ((List.range deck.length).map Int.ofNat) :=
          hsort ▸ (List.perm_insertionSort _ new_order).symm
        have hmem : ∀ e ∈ new_order, 0 ≤ e ∧ e < (deck.length : Int) := by
          intro e he
          have : e ∈ (List.range deck.length).map Int.ofNat := hperm.mem_iff.mp he
          obtain ⟨n, hn, rfl⟩ := List.mem_map.mp this
          have := List.mem_range.mp hn
          simp only [Int.ofNat_eq_natCast]
          omega
        have hnodup : new_order.Nodup := by
          refine hperm.nodup_iff.mpr ?_
          exact List.Nodup.map (fun x y h => Int.ofNat.inj h) (List.nodup_range _)
        injection hr with hr'
        subst hr'
        refine ⟨by simpa using hlen, hnodup, ?_⟩
        intro i hi
        have hi' : i < new_order.length := by omega
        have hgd : new_order.getD i 0 = new_order[i] := by
          rw [List.getD_eq_getElem?_getD, List.getElem?_eq_getElem hi']
          rfl
        obtain ⟨h0, h1'⟩ := hmem new_order[i] (List.getElem_mem hi')
        have hbound : (new_order[i]).toNat < deck.length := by omega
        show (new_order.map (fun idx => deck.getD idx.toNat default))[i]? = _
        rw [List.getElem?_map, List.getElem?_eq_getElem hi', hgd,
          List.getElem?_eq_getElem hbound]
        simp [List.getD_eq_getElem?_getD, List.getElem?_eq_getElem hbound]

/-- Concrete check of `reorder_slides_spec`: `[2,0,1]` on a 3-slide deck. -/
theorem reorder_slides_spec_witness :
    (([2, 0, 1] : List Int).length = ([10, 20, 30] : List Nat).length ∧
      ([2, 0, 1] : List Int).insertionSort (· ≤ ·) =
        (List.range ([10, 20, 30] : List Nat).length).map Int.ofNat) ∧
    (∃ r : ReorderResult Nat, reorder_slides ([10, 20, 30] : List Nat) [2, 0, 1] = .ok r) :=
  ⟨⟨by decide, by decide⟩,
    (reorder_slides_spec ([10, 20, 30] : List Nat) [2, 0, 1]).1.mpr ⟨by decide, by decide⟩⟩

/-- The deletion loop deletes every index of a strictly descending list of
valid indices: earlier removals never invalidate later (smaller) indices. -/
theorem deleteLoop_spec (l : List α) (ds : List Int) (c : Nat)
    (hsorted : ds.Pairwise (· > ·))
    (hvalid : ∀ d ∈ ds, 0 ≤ d ∧ d < (l.length : Int)) :
    (deleteLoop (l, c) ds).2 = c + ds.length ∧
    (deleteLoop (l, c) ds).1.length = l.length - ds.length := by
  induction ds generalizing l c with
  | nil => simp [deleteLoop]
  | cons d ds ih =>
    obtain ⟨hd0, hd1⟩ := hvalid d (List.mem_cons_self d ds)
    have hstep : delete_slide l d =
        .ok { deck := l.eraseIdx d.toNat,
              message := "Deleted slide at index " ++ toString d,
              deleted_index := d,
              remaining_slides := ((l.eraseIdx d.toNat).length : Int) } := by
      simp only [delete_slide]
      rw [if_neg (by omega)]
    have hlen : (l.eraseIdx d.toNat).length = l.length - 1 :=
      List.length_eraseIdx_of_lt (by omega)
    have hrest := ih (l.eraseIdx d.toNat) (c + 1) hsorted.of_cons (by
      intro e he
      refine ⟨(hvalid e (List.mem_cons_of_mem d he)).1, ?_⟩
      have h1 := List.rel_of_pairwise_cons hsorted he
      rw [hlen]
      omega)
    have hunf : deleteLoop (l, c) (d :: ds) = deleteLoop (l.eraseIdx d.toNat, c + 1) ds := by
      simp only [deleteLoop, List.foldl_cons, hstep]
    rw [hunf]
    refine ⟨?_, ?_⟩
    · rw [hrest.1]
      simp only [List.length_cons]
      omega
    · rw [hrest.2, hlen]
      simp only [List.length_cons]
      omega

/-- **C4**: `delete_slides` rejects duplicate indices before deleting
anything, deletes in descending index order so earlier removals never
invalidate later indices (hence every requested valid index is deleted and
`deleted_count = requested_count`), reports only aggregate counts, and
`delete_slides([])` is a no-op succeeding with `deleted_count = 0`. -/
theorem delete_slides_spec (deck : List α) :
    (delete_slides deck ([] : List Int) =
      .ok { deck := deck, message := "Deleted 0 slides", deleted_count := 0,
            requested_count := 0, remaining_slides := (deck.length : Int) }) ∧
    (∀ idxs : List Int, (∀ i ∈ idxs, 0 ≤ i ∧ i < (deck.length : Int)) → ¬ idxs.Nodup →
      delete_slides deck idxs = .error "Duplicate indices found in slide_indices") ∧
    (∀ idxs : List Int, (∀ i ∈ idxs, 0 ≤ i ∧ i < (deck.length : Int)) → idxs.Nodup →
      ∃ r : DeleteManyResult α, delete_slides deck idxs = .ok r ∧
        r.deleted_count = idxs.length ∧ r.requested_count = idxs.length ∧
        r.deck.length = deck.length - idxs.length) := by
  have hfind : ∀ idxs : List Int, (∀ i ∈ idxs, 0 ≤ i ∧ i < (deck.length : Int)) →
      idxs.find? (fun idx => decide (idx < 0 ∨ idx ≥ (deck.length : Int))) = none := by
    intro idxs hvalid
    rw [List.find?_eq_none]
    intro x hx
    have := hvalid x hx
    simp only [decide_eq_true_eq]
    omega
  refine ⟨by simp [delete_slides, deleteLoop]; rfl, ?_, ?_⟩
  · intro idxs hvalid hdup
    have hdl : idxs.dedup.length ≠ idxs.length := by
      intro hl
      have heq : idxs.dedup = idxs := (idxs.dedup_sublist).eq_of_length hl
      exact hdup (heq ▸ idxs.nodup_dedup)
    simp only [delete_slides, hfind idxs hvalid]
    rw [if_pos (fun h => hdl h.symm)]
  · intro idxs hvalid hnodup
    have hdl : idxs.dedup = idxs := List.dedup_eq_self.mpr hnodup
    have hsorted : (idxs.insertionSort (· ≥ ·)).Pairwise (· > ·) := by
      have h1 : (idxs.insertionSort (· ≥ ·)).Pairwise (· ≥ ·) :=
        List.sorted_insertionSort _ _
      have h2 : (idxs.insertionSort (· ≥ ·)).Nodup :=
        (List.perm_insertionSort _ idxs).nodup_iff.mpr hnodup
      exact (h1.and h2).imp (fun h => lt_of_le_of_ne h.1 (Ne.symm h.2))
    have hvs : ∀ d ∈ idxs.insertionSort (· ≥ ·), 0 ≤ d ∧ d < (deck.length : Int) :=
      fun d hd => hvalid d ((List.mem_insertionSort _).mp hd)
    have hloop := deleteLoop_spec deck (idxs.insertionSort (· ≥ ·)) 0 hsorted hvs
    simp only [delete_slides, hfind idxs hvalid]
    rw [if_neg (not_not_intro (by rw [hdl]))]
    refine ⟨_, rfl, ?_, rfl, ?_⟩
    · rw [hloop.1]
      simp [List.length_insertionSort]
    · rw [hloop.2]
      simp [List.length_insertionSort]

/-- Concrete check of `delete_slides_spec`: deleting `[0, 2]` from 3 slides. -/
theorem delete_slides_spec_witness :
    ((∀ i ∈ ([0, 2] : List Int), 0 ≤ i ∧ i < (([7, 8, 9] : List Nat).length : Int)) ∧
      ([0, 2] : List Int).Nodup) ∧
    ∃ r : DeleteManyResult Nat, delete_slides ([7, 8, 9] : List Nat) [0, 2] = .ok r ∧
      r.deleted_count = ([0, 2] : List Int).length ∧
      r.requested_count = ([0, 2] : List Int).length ∧
      r.deck.length = ([7, 8, 9] : List Nat).length - ([0, 2] : List Int).length :=
  ⟨⟨by decide, by decide⟩,
    (delete_slides_spec ([7, 8, 9] : List Nat)).2.2 [0, 2] (by decide) (by decide)⟩

/-- Relocating the appended clone: erasing the appended last element and
reinserting it at `t` is an insertion into the original deck. -/
theorem moveL_append_last (deck : List α) (clone : α) (t : Nat) :
    moveL (deck ++ [clone]) deck.length t = deck.insertIdx t clone := by
  have h1 : (deck ++ [clone]).eraseIdx deck.length = deck := by
    rw [List.eraseIdx_append_of_length_le (le_refl _)]
    simp
  have h2 : (deck ++ [clone]).getD deck.length default = clone := by
    rw [List.getD_eq_getElem?_getD, List.getElem?_append_right (le_refl _)]
    simp
  unfold moveL
  rw [h1, h2]

/-- With a valid `slide_index`, omitting `insert_position` behaves as passing
`slide_index + 1` (the source defaults it before validating). -/
theorem duplicate_slide_default (deck : List α) (clone : α) (i : Int)
    (hi0 : 0 ≤ i) (hi1 : i < (deck.length : Int)) :
    duplicate_slide deck clone i none = duplicate_slide deck clone i (some (i + 1)) := by
  simp only [duplicate_slide,
    if_neg (show ¬ (i < 0 ∨ i ≥ (deck.length : Int)) by omega),
    if_neg (show ¬ (i + 1 < 0 ∨ i + 1 > (deck.length : Int)) by omega)]

/-- **C5**: for a valid `slide_index`, `duplicate_slide` appends the clone at
the end of the deck and performs at most one `move_slide` to relocate it, so
the result is an insertion at `insert_position` (default `slide_index + 1`)
and the slide count grows by exactly 1; `insert_position` is accepted up to
and including `len`, and any larger or negative value is rejected. -/
theorem duplicate_slide_spec (deck : List α) (clone : α) (i : Int)
    (hi0 : 0 ≤ i) (hi1 : i < (deck.length : Int)) :
    (∀ p : Int, 0 ≤ p → p ≤ (deck.length : Int) →
      ∃ r : DuplicateResult α, duplicate_slide deck clone i (some p) = .ok r ∧
        r.deck = deck.insertIdx p.toNat clone ∧
        r.deck.length = deck.length + 1 ∧
        r.original_index = i ∧ r.new_index = p) ∧
    (∀ p : Int, (p < 0 ∨ p > (deck.length : Int)) →
      duplicate_slide deck clone i (some p) =
        .error ("Invalid insert_position: " ++ toString p ++ ". Must be 0-" ++
          toString (deck.length : Int))) ∧
    (∃ r : DuplicateResult α, duplicate_slide deck clone i none = .ok r ∧
      r.deck = deck.insertIdx (i + 1).toNat clone ∧
      r.deck.length = deck.length + 1 ∧
      r.original_index = i ∧ r.new_index = i + 1) := by
  have hvalid : ∀ p : Int, 0 ≤ p → p ≤ (deck.length : Int) →
      ∃ r : DuplicateResult α, duplicate_slide deck clone i (some p) = .ok r ∧
        r.deck = deck.insertIdx p.toNat clone ∧
        r.deck.length = deck.length + 1 ∧
        r.original_index = i ∧ r.new_index = p := by
    intro p hp0 hp1
    have hlen2 : ((deck ++ [clone]).length : Int) - 1 = (deck.length : Int) := by
      simp
    have hinslen : (deck.insertIdx p.toNat clone).length = deck.length + 1 :=
      List.length_insertIdx _ _ (by omega)
    simp only [duplicate_slide, if_neg (show ¬ (i < 0 ∨ i ≥ (deck.length : Int)) by omega),
      if_neg (show ¬ (p < 0 ∨ p > (deck.length : Int)) by omega)]
    rw [hlen2]
    by_cases hpe : p = (deck.length : Int)
    · rw [if_neg (not_not_intro hpe)]
      refine ⟨_, rfl, ?_, ?_, rfl, by rw [hpe]⟩
      · show deck ++ [clone] = deck.insertIdx p.toNat clone
        have : p.toNat = deck.length := by omega
        rw [this, List.insertIdx_length_self]
      · show (deck ++ [clone]).length = deck.length + 1
        simp
    · rw [if_pos hpe]
      have happlen : ((deck ++ [clone]).length : Int) = (deck.length : Int) + 1 := by simp
      rw [move_slide_ok (deck ++ [clone]) (deck.length : Int) p (by omega)
        (by rw [happlen]; omega) hp0 (by rw [happlen]; omega) (fun h => hpe h.symm), ok_bind]
      refine ⟨_, rfl, ?_, ?_, rfl, rfl⟩
      · show moveL (deck ++ [clone]) (deck.length : Int).toNat p.toNat =
          deck.insertIdx p.toNat clone
        rw [show ((deck.length : Int)).toNat = deck.length by omega,
          moveL_append_last deck clone p.toNat]
      · show (moveL (deck ++ [clone]) (deck.length : Int).toNat p.toNat).length =
          deck.length + 1
        rw [show ((deck.length : Int)).toNat = deck.length by omega,
          moveL_append_last deck clone p.toNat, hinslen]
  refine ⟨hvalid, ?_, ?_⟩
  · intro p hp
    simp only [duplicate_slide, if_neg (show ¬ (i < 0 ∨ i ≥ (deck.length : Int)) by omega),
      if_pos hp]
  · rw [duplicate_slide_default deck clone i hi0 hi1]
    exact hvalid (i + 1) (by omega) (by omega)

/-- Concrete check of `duplicate_slide_spec`: duplicating slide 0 of a 2-slide
deck, both at the default position and at the end insertion point. -/
theorem duplicate_slide_spec_witness :
    ((0 : Int) ≤ 0 ∧ (0 : Int) < (([5, 6] : List Nat).length : Int)) ∧
    ((∀ p : Int, 0 ≤ p → p ≤ (([5, 6] : List Nat).length : Int) →
      ∃ r : DuplicateResult Nat, duplicate_slide ([5, 6] : List Nat) 7 0 (some p) = .ok r ∧
        r.deck = ([5, 6] : List Nat).insertIdx p.toNat 7 ∧
        r.deck.length = ([5, 6] : List Nat).length + 1 ∧
        r.original_index = 0 ∧ r.new_index = p) ∧
    (∀ p : Int, (p < 0 ∨ p > (([5, 6] : List Nat).length : Int)) →
      duplicate_slide ([5, 6] : List Nat) 7 0 (some p) =
        .error ("Invalid insert_position: " ++ toString p ++ ". Must be 0-" ++
          toString ((([5, 6] : List Nat).length : Int)))) ∧
    (∃ r : DuplicateResult Nat, duplicate_slide ([5, 6] : List Nat) 7 0 none = .ok r ∧
      r.deck = ([5, 6] : List Nat).insertIdx ((0 : Int) + 1).toNat 7 ∧
      r.deck.length = ([5, 6] : List Nat).length + 1 ∧
      r.original_index = 0 ∧ r.new_index = (0 : Int) + 1)) :=
  ⟨⟨by decide, by decide⟩,
    duplicate_slide_spec ([5, 6] : List Nat) 7 0 (by decide) (by decide)⟩

/-- Counterexample to **C9** as stated: on deck `[10]`, the invalid batch
`[0, 0]` (duplicate indices) is rejected with the fixed message
`"Duplicate indices found in slide_indices"`, which contains no digit at all,
so it names neither the offending value `0` nor the valid range `0-0`. -/
theorem delete_slides_duplicate_message_counterexample :
    delete_slides ([10] : List Nat) [0, 0] =
      .error "Duplicate indices found in slide_indices" ∧
    "Duplicate indices found in slide_indices".toList.all (fun c => ! c.isDigit) = true := by
  exact ⟨rfl, by decide⟩

/-- **C9** (amended): every invalid input to move/swap/reorder/delete/
delete-many/duplicate makes the call abort with an error before any deck is
produced; the out-of-range index failures name the offending value together
with the valid range, while the duplicate-batch-indices failure and the
malformed-permutation failure report fixed messages that do not name the
offending value. -/
theorem sequence_ops_validation (deck : List α) :
    (∀ f t : Int, (f < 0 ∨ f ≥ (deck.length : Int)) →
      move_slide deck f t = .error ("Invalid from_index: " ++ toString f ++
        ". Must be 0-" ++ toString ((deck.length : Int) - 1))) ∧
    (∀ f t : Int, 0 ≤ f → f < (deck.length : Int) → (t < 0 ∨ t ≥ (deck.length : Int)) →
      move_slide deck f t = .error ("Invalid to_index: " ++ toString t ++
        ". Must be 0-" ++ toString ((deck.length : Int) - 1))) ∧
    (∀ a b : Int, (a < 0 ∨ a ≥ (deck.length : Int)) →
      swap_slides deck a b = .error ("Invalid index_a: " ++ toString a ++
        ". Must be 0-" ++ toString ((deck.length : Int) - 1))) ∧
    (∀ a b : Int, 0 ≤ a → a < (deck.length : Int) → (b < 0 ∨ b ≥ (deck.length : Int)) →
      swap_slides deck a b = .error ("Invalid index_b: " ++ toString b ++
        ". Must be 0-" ++ toString ((deck.length : Int) - 1))) ∧
    (∀ o : List Int, (o.length : Int) ≠ (deck.length : Int) →
      reorder_slides deck o = .error ("new_order must contain " ++
        toString (deck.length : Int) ++ " indices, got " ++ toString o.length)) ∧
    (∀ o : List Int, (o.length : Int) = (deck.length : Int) →
      o.insertionSort (· ≤ ·) ≠ (List.range deck.length).map Int.ofNat →
      reorder_slides deck o = .error ("new_order must contain all indices 0-" ++
        toString ((deck.length : Int) - 1) ++ " exactly once")) ∧
    (∀ i : Int, (i < 0 ∨ i ≥ (deck.length : Int)) →
      delete_slide deck i = .error ("Invalid slide_index: " ++ toString i ++
        ". Must be 0-" ++ toString ((deck.length : Int) - 1))) ∧
    (∀ (idxs : List Int) (i : Int),
      idxs.find? (fun idx => decide (idx < 0 ∨ idx ≥ (deck.length : Int))) = some i →
      delete_slides deck idxs = .error ("Invalid slide index: " ++ toString i ++
        ". Must be 0-" ++ toString ((deck.length : Int) - 1))) ∧
    (∀ idxs : List Int, (∀ i ∈ idxs, 0 ≤ i ∧ i < (deck.length : Int)) → ¬ idxs.Nodup →
      delete_slides deck idxs = .error "Duplicate indices found in slide_indices") ∧
    (∀ (clone : α) (i : Int) (pos : Option Int), (i < 0 ∨ i ≥ (deck.length : Int)) →
      duplicate_slide deck clone i pos = .error ("Invalid slide_index: " ++ toString i ++
        ". Must be 0-" ++ toString ((deck.length : Int) - 1))) ∧
    (∀ (clone : α) (i p : Int), 0 ≤ i → i < (deck.length : Int) →
      (p < 0 ∨ p > (deck.length : Int)) →
      duplicate_slide deck clone i (some p) = .error ("Invalid insert_position: " ++
        toString p ++ ". Must be 0-" ++ toString (deck.length : Int))) := by
  refine ⟨?_, ?_, ?_, ?_, ?_, ?_, ?_, ?_, ?_, ?_, ?_⟩
  · exact fun f t h => move_slide_invalid_from deck f t h
  · exact fun f t h0 h1 h => move_slide_invalid_to deck f t h0 h1 h
  · intro a b h
    simp only [swap_slides]
    rw [if_pos h]
  · intro a b h0 h1 h
    simp only [swap_slides]
    rw [if_neg (by omega), if_pos h]
  · intro o h
    simp only [reorder_slides]
    rw [if_pos h]
  · intro o h1 h2
    simp only [reorder_slides]
    rw [if_neg (not_not_intro h1), if_pos h2]
  · intro i h
    simp only [delete_slide]
    rw [if_pos h]
  · intro idxs i hfind
    simp only [delete_slides, hfind]
  · intro idxs hvalid hdup
    have hfind : idxs.find? (fun idx => decide (idx < 0 ∨ idx ≥ (deck.length : Int))) =
        none := by
      rw [List.find?_eq_none]
      intro x hx
      have := hvalid x hx
      simp only [decide_eq_true_eq]
      omega
    have hdl : idxs.dedup.length ≠ idxs.length := by
      intro hl
      have heq : idxs.dedup = idxs := (idxs.dedup_sublist).eq_of_length hl
      exact hdup (heq ▸ idxs.nodup_dedup)
    simp only [delete_slides, hfind]
    rw [if_pos (fun h => hdl h.symm)]
  · intro clone i pos h
    simp only [duplicate_slide]
    rw [if_pos h]
  · intro clone i p h0 h1 h
    simp only [duplicate_slide, if_neg (show ¬ (i < 0 ∨ i ≥ (deck.length : Int)) by omega),
      if_pos h]

/-- Concrete check of `sequence_ops_validation`: out-of-range indices on a
2-slide deck produce the value-and-range messages. -/
theorem sequence_ops_validation_witness :
    (((5 : Int) < 0 ∨ (5 : Int) ≥ (([1, 2] : List Nat).length : Int)) ∧
      ((-1 : Int) < 0 ∨ (-1 : Int) ≥ (([1, 2] : List Nat).length : Int))) ∧
    (move_slide ([1, 2] : List Nat) 5 0 = .error ("Invalid from_index: " ++ toString (5 : Int) ++
      ". Must be 0-" ++ toString ((([1, 2] : List Nat).length : Int) - 1)) ∧
    swap_slides ([1, 2] : List Nat) (-1) 0 = .error ("Invalid index_a: " ++
      toString (-1 : Int) ++ ". Must be 0-" ++ toString ((([1, 2] : List Nat).length : Int) - 1))) :=
  ⟨⟨by decide, by decide⟩,
    (sequence_ops_validation ([1, 2] : List Nat)).1 5 0 (by decide),
    (sequence_ops_validation ([1, 2] : List Nat)).2.2.1 (-1) 0 (by decide)⟩

/-! ## Claim theorems for the geometry engine -/

/-- `Int.log 2` is characterized by the power-of-two bracket. -/
theorem log2_eq_of (q : ℚ) (e : ℤ) (h0 : 0 < q)
    (h1 : (2 : ℚ) ^ e ≤ q) (h2 : q < (2 : ℚ) ^ (e + 1)) : Int.log 2 q = e := by
  have hl := Int.zpow_log_le_self (show (1 : ℕ) < 2 by norm_num) h0
  have hu := Int.lt_zpow_succ_log_self (show (1 : ℕ) < 2 by norm_num) q
  by_contra hne
  rcases lt_or_gt_of_ne hne with h | h
  · have hle : Int.log 2 q + 1 ≤ e := by omega
    have hz : (2 : ℚ) ^ (Int.log 2 q + 1) ≤ (2 : ℚ) ^ e :=
      zpow_le_zpow_right₀ (by norm_num) hle
    push_cast at hu
    linarith
  · have hle : e + 1 ≤ Int.log 2 q := by omega
    have hz : (2 : ℚ) ^ (e + 1) ≤ (2 : ℚ) ^ (Int.log 2 q) :=
      zpow_le_zpow_right₀ (by norm_num) hle
    push_cast at hl
    linarith

/-- Evaluation rule for `fl` when the scaled significand rounds down. -/
theorem fl_eq_of_lt (q : ℚ) (e m : ℤ) (h0 : 0 < q)
    (h1 : (2 : ℚ) ^ e ≤ q) (h2 : q < (2 : ℚ) ^ (e + 1))
    (hm : (m : ℚ) ≤ q * (2 : ℚ) ^ (52 - e))
    (hlt : q * (2 : ℚ) ^ (52 - e) < (m : ℚ) + 1/2) :
    fl q = (m : ℚ) * (2 : ℚ) ^ (e - 52) := by
  have he : Int.log 2 |q| = e := by
    rw [abs_of_pos h0]
    exact log2_eq_of q e h0 h1 h2
  have hfl : ⌊q * (2 : ℚ) ^ (52 - e)⌋ = m :=
    Int.floor_eq_iff.mpr ⟨hm, by linarith⟩
  unfold fl
  rw [if_neg (ne_of_gt h0), he]
  unfold roundHalfEven
  rw [hfl, if_pos (by linarith)]

/-- Evaluation rule for `fl` when the scaled significand rounds up. -/
theorem fl_eq_of_gt (q : ℚ) (e m : ℤ) (h0 : 0 < q)
    (h1 : (2 : ℚ) ^ e ≤ q) (h2 : q < (2 : ℚ) ^ (e + 1))
    (hgt : (m : ℚ) + 1/2 < q * (2 : ℚ) ^ (52 - e))
    (hub : q * (2 : ℚ) ^ (52 - e) < (m : ℚ) + 1) :
    fl q = ((m : ℚ) + 1) * (2 : ℚ) ^ (e - 52) := by
  have he : Int.log 2 |q| = e := by
    rw [abs_of_pos h0]
    exact log2_eq_of q e h0 h1 h2
  have hfl : ⌊q * (2 : ℚ) ^ (52 - e)⌋ = m :=
    Int.floor_eq_iff.mpr ⟨by linarith, by linarith⟩
  unfold fl
  rw [if_neg (ne_of_gt h0), he]
  unfold roundHalfEven
  rw [hfl, if_neg (by intro hc; linarith), if_pos (by linarith)]
  push_cast
  ring

/-- Evaluation rule for `fl` on a tie with odd significand floor: ties go to
the even neighbour above. -/
theorem fl_eq_of_tie_odd (q : ℚ) (e m : ℤ) (h0 : 0 < q)
    (h1 : (2 : ℚ) ^ e ≤ q) (h2 : q < (2 : ℚ) ^ (e + 1))
    (htie : q * (2 : ℚ) ^ (52 - e) = (m : ℚ) + 1/2) (hodd : m % 2 = 1) :
    fl q = ((m : ℚ) + 1) * (2 : ℚ) ^ (e - 52) := by
  have he : Int.log 2 |q| = e := by
    rw [abs_of_pos h0]
    exact log2_eq_of q e h0 h1 h2
  have hfl : ⌊q * (2 : ℚ) ^ (52 - e)⌋ = m :=
    Int.floor_eq_iff.mpr ⟨by rw [htie]; linarith, by rw [htie]; linarith⟩
  unfold fl
  rw [if_neg (ne_of_gt h0), he]
  unfold roundHalfEven
  rw [hfl, htie, if_neg (by intro hc; linarith), if_neg (by intro hc; linarith),
    if_neg (by omega)]
  push_cast
  ring

theorem fl_zero : fl 0 = 0 := by
  unfold fl
  rw [if_pos rfl]

theorem fl_one : fl 1 = 1 := by
  rw [fl_eq_of_lt 1 0 4503599627370496 (by norm_num) (by norm_num) (by norm_num)
    (by norm_num) (by norm_num)]
  norm_num

theorem fl_two : fl 2 = 2 := by
  rw [fl_eq_of_lt 2 1 4503599627370496 (by norm_num) (by norm_num) (by norm_num)
    (by norm_num) (by norm_num)]
  norm_num

theorem fl_half : fl (1/2) = 1/2 := by
  rw [fl_eq_of_lt (1/2) (-1) 4503599627370496 (by norm_num) (by norm_num) (by norm_num)
    (by norm_num) (by norm_num)]
  norm_num

/-- `2⁻⁵⁴` is a power of two, hence exactly representable. -/
theorem fl_ulp54 : fl (1 / 2 ^ 54) = 1 / 2 ^ 54 := by
  rw [fl_eq_of_lt (1 / 2 ^ 54) (-54) 4503599627370496 (by norm_num) (by norm_num)
    (by norm_num) (by norm_num) (by norm_num)]
  norm_num

/-- The binary64 value of 0.1 lies slightly above one tenth. -/
theorem fl_tenth : fl (1/10) = 7205759403792794 / 2 ^ 56 := by
  rw [fl_eq_of_gt (1/10) (-4) 7205759403792793 (by norm_num) (by norm_num) (by norm_num)
    (by norm_num) (by norm_num)]
  norm_num

/-- The binary64 value of 0.2 lies slightly above one fifth. -/
theorem fl_fifth : fl (1/5) = 7205759403792794 / 2 ^ 55 := by
  rw [fl_eq_of_gt (1/5) (-3) 7205759403792793 (by norm_num) (by norm_num) (by norm_num)
    (by norm_num) (by norm_num)]
  norm_num

/-- The binary64 value of 0.3 lies slightly below three tenths. -/
theorem fl_three_tenths : fl (3/10) = 5404319552844595 / 2 ^ 54 := by
  rw [fl_eq_of_lt (3/10) (-2) 5404319552844595 (by norm_num) (by norm_num) (by norm_num)
    (by norm_num) (by norm_num)]
  norm_num

/-- The float sum `0.1 + 0.2` is a tie rounded up to even:
`0.30000000000000004`, one ulp above the float `0.3`. -/
theorem fl_sum_tenth_fifth :
    fl (7205759403792794 / 2 ^ 56 + 7205759403792794 / 2 ^ 55) =
      5404319552844596 / 2 ^ 54 := by
  rw [show (7205759403792794 / 2 ^ 56 + 7205759403792794 / 2 ^ 55 : ℚ) =
      10808639105689191 / 2 ^ 55 by norm_num]
  rw [fl_eq_of_tie_odd (10808639105689191 / 2 ^ 55) (-2) 5404319552844595
    (by norm_num) (by norm_num) (by norm_num) (by norm_num) (by norm_num)]
  norm_num

/-- The float sum `0.3 + 0.2` is exactly `0.5`. -/
theorem fl_sum_threetenths_fifth :
    fl (5404319552844595 / 2 ^ 54 + 7205759403792794 / 2 ^ 55) = 1 / 2 := by
  rw [show (5404319552844595 / 2 ^ 54 + 7205759403792794 / 2 ^ 55 : ℚ) = 1/2 by
    norm_num]
  exact fl_half

theorem inchL_A : inchL ⟨91440, 0, 182880, 914400⟩ = 7205759403792794 / 2 ^ 56 := by
  unfold inchL
  rw [show (((⟨91440, 0, 182880, 914400⟩ : Shape).left : ℚ)) / EMU = 1/10 by
    norm_num [EMU]]
  exact fl_tenth

theorem inchT_A : inchT ⟨91440, 0, 182880, 914400⟩ = 0 := by
  unfold inchT
  rw [show (((⟨91440, 0, 182880, 914400⟩ : Shape).top : ℚ)) / EMU = 0 by
    norm_num [EMU]]
  exact fl_zero

theorem inchR_A : inchR ⟨91440, 0, 182880, 914400⟩ = 5404319552844596 / 2 ^ 54 := by
  unfold inchR
  rw [inchL_A, show inchW ⟨91440, 0, 182880, 914400⟩ = 7205759403792794 / 2 ^ 55 by
    unfold inchW
    rw [show (((⟨91440, 0, 182880, 914400⟩ : Shape).width : ℚ)) / EMU = 1/5 by
      norm_num [EMU]]
    exact fl_fifth]
  exact fl_sum_tenth_fifth

theorem inchB_A : inchB ⟨91440, 0, 182880, 914400⟩ = 1 := by
  unfold inchB
  rw [inchT_A, show inchH ⟨91440, 0, 182880, 914400⟩ = 1 by
    unfold inchH
    rw [show (((⟨91440, 0, 182880, 914400⟩ : Shape).height : ℚ)) / EMU = 1 by
      norm_num [EMU]]
    exact fl_one]
  rw [show (0 : ℚ) + 1 = 1 by norm_num]
  exact fl_one

theorem inchL_B : inchL ⟨274320, 0, 182880, 914400⟩ = 5404319552844595 / 2 ^ 54 := by
  unfold inchL
  rw [show (((⟨274320, 0, 182880, 914400⟩ : Shape).left : ℚ)) / EMU = 3/10 by
    norm_num [EMU]]
  exact fl_three_tenths

theorem inchT_B : inchT ⟨274320, 0, 182880, 914400⟩ = 0 := by
  unfold inchT
  rw [show (((⟨274320, 0, 182880, 914400⟩ : Shape).top : ℚ)) / EMU = 0 by
    norm_num [EMU]]
  exact fl_zero

theorem inchR_B : inchR ⟨274320, 0, 182880, 914400⟩ = 1 / 2 := by
  unfold inchR
  rw [inchL_B, show inchW ⟨274320, 0, 182880, 914400⟩ = 7205759403792794 / 2 ^ 55 by
    unfold inchW
    rw [show (((⟨274320, 0, 182880, 914400⟩ : Shape).width : ℚ)) / EMU = 1/5 by
      norm_num [EMU]]
    exact fl_fifth]
  exact fl_sum_threetenths_fifth

theorem inchB_B : inchB ⟨274320, 0, 182880, 914400⟩ = 1 := by
  unfold inchB
  rw [inchT_B, show inchH ⟨274320, 0, 182880, 914400⟩ = 1 by
    unfold inchH
    rw [show (((⟨274320, 0, 182880, 914400⟩ : Shape).height : ℚ)) / EMU = 1 by
      norm_num [EMU]]
    exact fl_one]
  rw [show (0 : ℚ) + 1 = 1 by norm_num]
  exact fl_one

/-- The pairwise test succeeds iff all four separation tests fail strictly,
stated on the binary64 inch values. -/
theorem overlapsB_true_iff (s1 s2 : Shape) :
    overlapsB s1 s2 = true ↔
      (inchL s2 < inchR s1 ∧ inchL s1 < inchR s2 ∧
       inchT s2 < inchB s1 ∧ inchT s1 < inchB s2) := by
  simp only [overlapsB, Bool.not_eq_true', decide_eq_false_iff_not, not_or, not_le,
    ge_iff_le]

theorem overlapsB_symm (s1 s2 : Shape) : overlapsB s1 s2 = overlapsB s2 s1 := by
  rcases hb : overlapsB s2 s1 with _ | _
  · rw [← Bool.not_eq_true]
    intro hc
    obtain ⟨h1, h2, h3, h4⟩ := (overlapsB_true_iff s1 s2).mp hc
    have h5 := (overlapsB_true_iff s2 s1).mpr ⟨h2, h1, h4, h3⟩
    rw [hb] at h5
    exact Bool.false_ne_true h5
  · obtain ⟨h1, h2, h3, h4⟩ := (overlapsB_true_iff s2 s1).mp hb
    exact (overlapsB_true_iff s1 s2).mpr ⟨h2, h1, h4, h3⟩

/-- The pair at 0.1 and 0.3 inches, 0.2 inches wide — exactly edge-touching
in EMU — passes the overlap test: `0.1 + 0.2 > 0.3` in binary64. -/
theorem overlapsB_tenths :
    overlapsB ⟨91440, 0, 182880, 914400⟩ ⟨274320, 0, 182880, 914400⟩ = true := by
  refine (overlapsB_true_iff _ _).mpr ⟨?_, ?_, ?_, ?_⟩
  · rw [inchL_B, inchR_A]
    norm_num
  · rw [inchL_A, inchR_B]
    norm_num
  · rw [inchT_B, inchB_A]
    norm_num
  · rw [inchT_A, inchB_B]
    norm_num

theorem inchL_B0 : inchL ⟨1828800, 0, 1828800, 914400⟩ = 2 := by
  unfold inchL
  rw [show (((⟨1828800, 0, 1828800, 914400⟩ : Shape).left : ℚ)) / EMU = 2 by
    norm_num [EMU]]
  exact fl_two

theorem inchR_A0 : inchR ⟨0, 0, 1828800, 914400⟩ = 2 := by
  unfold inchR
  rw [show inchL ⟨0, 0, 1828800, 914400⟩ = 0 by
      unfold inchL
      rw [show (((⟨0, 0, 1828800, 914400⟩ : Shape).left : ℚ)) / EMU = 0 by
        norm_num [EMU]]
      exact fl_zero,
    show inchW ⟨0, 0, 1828800, 914400⟩ = 2 by
      unfold inchW
      rw [show (((⟨0, 0, 1828800, 914400⟩ : Shape).width : ℚ)) / EMU = 2 by
        norm_num [EMU]]
      exact fl_two]
  rw [show (0 : ℚ) + 2 = 2 by norm_num]
  exact fl_two

/-- An edge-touching pair whose coordinates convert to exactly representable
inch values (here 2.0) is not reported: every conversion and sum is exact, so
the non-strict separation test holds with equality. -/
theorem overlapsB_exact_touch :
    overlapsB ⟨0, 0, 1828800, 914400⟩ ⟨1828800, 0, 1828800, 914400⟩ = false := by
  rw [← Bool.not_eq_true]
  intro hc
  obtain ⟨h1, -, -, -⟩ := (overlapsB_true_iff _ _).mp hc
  rw [inchL_B0, inchR_A0] at h1
  exact absurd h1 (by norm_num)

/-- The entry reported for the 0.1/0.3 touching pair: a sliver exactly one
ulp (2⁻⁵⁴ inches) wide, of area 2⁻⁵⁴ square inches. -/
theorem entry_tenths :
    mkOverlapEntry 0 1 ⟨91440, 0, 182880, 914400⟩ ⟨274320, 0, 182880, 914400⟩ =
      { shape1_index := 0, shape2_index := 1,
        overlap_area := 1 / 2 ^ 54,
        overlap_left := 5404319552844595 / 2 ^ 54, overlap_top := 0,
        overlap_width := 1 / 2 ^ 54, overlap_height := 1 } := by
  simp only [mkOverlapEntry]
  rw [inchL_A, inchL_B, inchT_A, inchT_B, inchR_A, inchR_B, inchB_A, inchB_B]
  rw [max_eq_right (by norm_num :
        (7205759403792794 : ℚ) / 2 ^ 56 ≤ 5404319552844595 / 2 ^ 54),
    min_eq_left (by norm_num : (5404319552844596 : ℚ) / 2 ^ 54 ≤ 1 / 2),
    max_self, min_self]
  rw [show (5404319552844596 / 2 ^ 54 - 5404319552844595 / 2 ^ 54 : ℚ) = 1 / 2 ^ 54 by
      norm_num,
    show ((1 : ℚ) - 0) = 1 by norm_num, fl_ulp54, fl_one,
    show ((1 : ℚ) / 2 ^ 54 * 1) = 1 / 2 ^ 54 by norm_num, fl_ulp54]

/-- The overlap report contains exactly the pairs `i < j` whose strict test
succeeds, each carried by its `mkOverlapEntry`. -/
theorem detect_mem (slide_shapes : List Shape) (e : OverlapEntry) :
    e ∈ (detect_overlapping_elements slide_shapes).overlaps ↔
      ∃ i j : Nat, i < j ∧ j < slide_shapes.length ∧
        overlapsB (slide_shapes.getD i default) (slide_shapes.getD j default) = true ∧
        e = mkOverlapEntry i j (slide_shapes.getD i default) (slide_shapes.getD j default) := by
  simp only [detect_overlapping_elements, List.mem_flatMap, List.mem_filterMap,
    List.mem_range, List.mem_range', Option.ite_none_right_eq_some, Option.some.injEq]
  constructor
  · rintro ⟨i, hi, j, ⟨⟨k, hk, rfl⟩, hov, rfl⟩⟩
    exact ⟨i, i + 1 + 1 * k, by omega, by omega, hov, rfl⟩
  · rintro ⟨i, j, hij, hjn, hov, rfl⟩
    refine ⟨i, by omega, j, ⟨⟨j - (i + 1), by omega, by omega⟩, hov, rfl⟩⟩

theorem detect_has_overlaps_iff (slide_shapes : List Shape) :
    (detect_overlapping_elements slide_shapes).has_overlaps = true ↔
      ∃ i j : Nat, i < j ∧ j < slide_shapes.length ∧
        overlapsB (slide_shapes.getD i default) (slide_shapes.getD j default) = true := by
  rw [show (detect_overlapping_elements slide_shapes).has_overlaps =
    decide (0 < (detect_overlapping_elements slide_shapes).overlaps.length) from rfl]
  rw [decide_eq_true_eq, List.length_pos_iff_exists_mem]
  constructor
  · rintro ⟨e, he⟩
    obtain ⟨i, j, h1, h2, h3, _⟩ := (detect_mem slide_shapes e).mp he
    exact ⟨i, j, h1, h2, h3⟩
  · rintro ⟨i, j, h1, h2, h3⟩
    exact ⟨_, (detect_mem slide_shapes _).mpr ⟨i, j, h1, h2, h3, rfl⟩⟩

/-- Counterexample to **C6** as stated: the separation tests run on binary64
float inch values, not on the native coordinates, and `0.1 + 0.2 > 0.3` in
binary64.  Shape A at `left = 91440` EMU (0.1 inches) with `width = 182880`
EMU (0.2 inches) exactly touches shape B at `left = 274320` EMU (0.3 inches):
`A.left + A.width = B.left`.  Yet the code computes
`s1_right = 0.30000000000000004 > s2_left = 0.3` and reports the pair as
overlapping, so an edge-touching pair is NOT always reported as
non-overlapping and `has_overlaps` is `true`. -/
theorem detect_touching_reported_counterexample :
    ((⟨91440, 0, 182880, 914400⟩ : Shape).left +
        (⟨91440, 0, 182880, 914400⟩ : Shape).width =
      (⟨274320, 0, 182880, 914400⟩ : Shape).left) ∧
    (detect_overlapping_elements
        [⟨91440, 0, 182880, 914400⟩, ⟨274320, 0, 182880, 914400⟩]).has_overlaps =
      true := by
  refine ⟨by decide, ?_⟩
  rw [detect_has_overlaps_iff]
  exact ⟨0, 1, by omega, by decide, overlapsB_tenths⟩

/-- Claim **C6** (amended): overlap detection scans all pairs `i < j`,
reporting a pair iff all four half-plane separation tests fail under strict
inequality on the binary64 float inch values (`fl` of the converted
coordinates); the relation is symmetric, and each reported pair carries the
float intersection rectangle and its area.  An edge-touching pair whose
converted coordinates are exactly representable (the 2-inch example) is
reported as non-overlapping, but an edge-touching pair need not be: the
0.1/0.2/0.3-inch pair is reported with a one-ulp sliver of area 2⁻⁵⁴ square
inches, because `0.1 + 0.2 > 0.3` in binary64. -/
theorem detect_overlapping_float_spec :
    (∀ s1 s2 : Shape, overlapsB s1 s2 = overlapsB s2 s1) ∧
    (∀ s1 s2 : Shape, overlapsB s1 s2 = true ↔
      (inchL s2 < inchR s1 ∧ inchL s1 < inchR s2 ∧
       inchT s2 < inchB s1 ∧ inchT s1 < inchB s2)) ∧
    (∀ (slide_shapes : List Shape) (e : OverlapEntry),
      e ∈ (detect_overlapping_elements slide_shapes).overlaps ↔
        ∃ i j : Nat, i < j ∧ j < slide_shapes.length ∧
          overlapsB (slide_shapes.getD i default) (slide_shapes.getD j default) = true ∧
          e = mkOverlapEntry i j (slide_shapes.getD i default)
                (slide_shapes.getD j default)) ∧
    (∀ slide_shapes : List Shape,
      (detect_overlapping_elements slide_shapes).has_overlaps = true ↔
        ∃ i j : Nat, i < j ∧ j < slide_shapes.length ∧
          overlapsB (slide_shapes.getD i default) (slide_shapes.getD j default) = true) ∧
    (∀ (i j : Nat) (s1 s2 : Shape),
      (mkOverlapEntry i j s1 s2).shape1_index = i ∧
      (mkOverlapEntry i j s1 s2).shape2_index = j ∧
      (mkOverlapEntry i j s1 s2).overlap_left = max (inchL s1) (inchL s2) ∧
      (mkOverlapEntry i j s1 s2).overlap_top = max (inchT s1) (inchT s2) ∧
      (mkOverlapEntry i j s1 s2).overlap_width =
        fl (min (inchR s1) (inchR s2) - max (inchL s1) (inchL s2)) ∧
      (mkOverlapEntry i j s1 s2).overlap_height =
        fl (min (inchB s1) (inchB s2) - max (inchT s1) (inchT s2)) ∧
      (mkOverlapEntry i j s1 s2).overlap_area =
        fl ((mkOverlapEntry i j s1 s2).overlap_width *
          (mkOverlapEntry i j s1 s2).overlap_height)) ∧
    ((detect_overlapping_elements
      [⟨0, 0, 1828800, 914400⟩, ⟨1828800, 0, 1828800, 914400⟩]).has_overlaps
        = false) ∧
    (mkOverlapEntry 0 1 ⟨91440, 0, 182880, 914400⟩ ⟨274320, 0, 182880, 914400⟩ ∈
      (detect_overlapping_elements
        [⟨91440, 0, 182880, 914400⟩, ⟨274320, 0, 182880, 914400⟩]).overlaps) ∧
    (mkOverlapEntry 0 1 ⟨91440, 0, 182880, 914400⟩ ⟨274320, 0, 182880, 914400⟩ =
      { shape1_index := 0, shape2_index := 1,
        overlap_area := 1 / 2 ^ 54,
        overlap_left := 5404319552844595 / 2 ^ 54, overlap_top := 0,
        overlap_width := 1 / 2 ^ 54, overlap_height := 1 }) := by
  refine ⟨overlapsB_symm, overlapsB_true_iff, detect_mem, detect_has_overlaps_iff,
    fun i j s1 s2 => ⟨rfl, rfl, rfl, rfl, rfl, rfl, rfl⟩, ?_, ?_, entry_tenths⟩
  · rw [← Bool.not_eq_true, detect_has_overlaps_iff]
    rintro ⟨i, j, hij, hj, hov⟩
    simp only [List.length_cons, List.length_nil] at hj
    have hi0 : i = 0 := by omega
    have hj1 : j = 1 := by omega
    subst hi0
    subst hj1
    rw [show ([⟨0, 0, 1828800, 914400⟩, ⟨1828800, 0, 1828800, 914400⟩] :
        List Shape).getD 0 default = ⟨0, 0, 1828800, 914400⟩ from rfl,
      show ([⟨0, 0, 1828800, 914400⟩, ⟨1828800, 0, 1828800, 914400⟩] :
        List Shape).getD 1 default = ⟨1828800, 0, 1828800, 914400⟩ from rfl,
      overlapsB_exact_touch] at hov
    exact Bool.false_ne_true hov
  · rw [detect_mem]
    exact ⟨0, 1, by omega, by decide, overlapsB_tenths, rfl⟩

/-! ### Pointwise lemmas for the in-place shape updates -/

theorem updateSelected_getElem? (shapes : List Shape) (idxs : List Int) (f : Shape → Shape)
    (p : Nat) :
    (updateSelected shapes idxs f)[p]? =
      (shapes[p]?).map (fun s => if idxs.contains (p : Int) then f s else s) := by
  simp [updateSelected]

theorem updateSelected_length (shapes : List Shape) (idxs : List Int) (f : Shape → Shape) :
    (updateSelected shapes idxs f).length = shapes.length := by
  simp [updateSelected]

theorem updateSelected_getD_mem (shapes : List Shape) (idxs : List Int) (f : Shape → Shape)
    (i : Int) (hi : i ∈ idxs) (h0 : 0 ≤ i) (hlt : i.toNat < shapes.length) :
    (updateSelected shapes idxs f).getD i.toNat default = f (shapes.getD i.toNat default) := by
  have hcast : ((i.toNat : Nat) : Int) = i := by omega
  rw [List.getD_eq_getElem?_getD, updateSelected_getElem?, List.getElem?_eq_getElem hlt]
  simp only [Option.map_some', Option.getD_some, List.contains, hcast,
    List.elem_eq_mem, hi, decide_True, if_true]
  rw [List.getD_eq_getElem?_getD, List.getElem?_eq_getElem hlt]
  rfl

theorem updateSelected_getD_not_mem (shapes : List Shape) (idxs : List Int) (f : Shape → Shape)
    (p : Nat) (hp : (p : Int) ∉ idxs) :
    (updateSelected shapes idxs f).getD p default = shapes.getD p default := by
  rw [List.getD_eq_getElem?_getD, List.getD_eq_getElem?_getD, updateSelected_getElem?]
  cases h : shapes[p]? with
  | none => rfl
  | some s =>
      simp only [Option.map_some', Option.getD_some, List.contains, List.elem_eq_mem, hp,
        decide_False, if_false]
      rfl

theorem updateSelected_getD_field (shapes : List Shape) (idxs : List Int) (f : Shape → Shape)
    (g : Shape → Int) (hf : ∀ s, g (f s) = g s) (p : Nat) :
    g ((updateSelected shapes idxs f).getD p default) = g (shapes.getD p default) := by
  rw [List.getD_eq_getElem?_getD, List.getD_eq_getElem?_getD, updateSelected_getElem?]
  cases h : shapes[p]? with
  | none => rfl
  | some s =>
      simp only [Option.map_some', Option.getD_some]
      split_ifs
      · exact hf s
      · rfl

theorem setLeftAt_getElem? (shapes : List Shape) (i : Int) (v : Int) (p : Nat) :
    (setLeftAt shapes i v)[p]? =
      (shapes[p]?).map (fun s => if (p : Int) = i then { s with left := v } else s) := by
  simp [setLeftAt]

theorem setTopAt_getElem? (shapes : List Shape) (i : Int) (v : Int) (p : Nat) :
    (setTopAt shapes i v)[p]? =
      (shapes[p]?).map (fun s => if (p : Int) = i then { s with top := v } else s) := by
  simp [setTopAt]

theorem setLeftAt_getD_field (shapes : List Shape) (i v : Int) (g : Shape → Int)
    (hg : ∀ s w, g { s with left := w } = g s) (p : Nat) :
    g ((setLeftAt shapes i v).getD p default) = g (shapes.getD p default) := by
  rw [List.getD_eq_getElem?_getD, List.getD_eq_getElem?_getD, setLeftAt_getElem?]
  cases h : shapes[p]? with
  | none => rfl
  | some s =>
      simp only [Option.map_some', Option.getD_some]
      split_ifs
      · exact hg s v
      · rfl

theorem setTopAt_getD_field (shapes : List Shape) (i v : Int) (g : Shape → Int)
    (hg : ∀ s w, g { s with top := w } = g s) (p : Nat) :
    g ((setTopAt shapes i v).getD p default) = g (shapes.getD p default) := by
  rw [List.getD_eq_getElem?_getD, List.getD_eq_getElem?_getD, setTopAt_getElem?]
  cases h : shapes[p]? with
  | none => rfl
  | some s =>
      simp only [Option.map_some', Option.getD_some]
      split_ifs
      · exact hg s v
      · rfl

theorem setLeftAt_getD_ne (shapes : List Shape) (i v : Int) (p : Nat)
    (hp : (p : Int) ≠ i) :
    (setLeftAt shapes i v).getD p default = shapes.getD p default := by
  rw [List.getD_eq_getElem?_getD, List.getD_eq_getElem?_getD, setLeftAt_getElem?]
  cases h : shapes[p]? with
  | none => rfl
  | some s => simp only [Option.map_some', Option.getD_some, if_neg hp]

theorem setTopAt_getD_ne (shapes : List Shape) (i v : Int) (p : Nat)
    (hp : (p : Int) ≠ i) :
    (setTopAt shapes i v).getD p default = shapes.getD p default := by
  rw [List.getD_eq_getElem?_getD, List.getD_eq_getElem?_getD, setTopAt_getElem?]
  cases h : shapes[p]? with
  | none => rfl
  | some s => simp only [Option.map_some', Option.getD_some, if_neg hp]

theorem setLeftAt_length (shapes : List Shape) (i v : Int) :
    (setLeftAt shapes i v).length = shapes.length := by
  simp [setLeftAt]

theorem setTopAt_length (shapes : List Shape) (i v : Int) :
    (setTopAt shapes i v).length = shapes.length := by
  simp [setTopAt]

theorem applyLefts_getD_field (ps : List (Int × Int)) (shapes : List Shape) (g : Shape → Int)
    (hg : ∀ s w, g { s with left := w } = g s) (p : Nat) :
    g ((applyLefts shapes ps).getD p default) = g (shapes.getD p default) := by
  induction ps generalizing shapes with
  | nil => rfl
  | cons q ps ih =>
      show g ((applyLefts (setLeftAt shapes q.1 q.2) ps).getD p default) = _
      rw [ih (setLeftAt shapes q.1 q.2), setLeftAt_getD_field shapes q.1 q.2 g hg p]

theorem applyTops_getD_field (ps : List (Int × Int)) (shapes : List Shape) (g : Shape → Int)
    (hg : ∀ s w, g { s with top := w } = g s) (p : Nat) :
    g ((applyTops shapes ps).getD p default) = g (shapes.getD p default) := by
  induction ps generalizing shapes with
  | nil => rfl
  | cons q ps ih =>
      show g ((applyTops (setTopAt shapes q.1 q.2) ps).getD p default) = _
      rw [ih (setTopAt shapes q.1 q.2), setTopAt_getD_field shapes q.1 q.2 g hg p]

theorem applyLefts_getD_not_mem (ps : List (Int × Int)) (shapes : List Shape) (p : Nat)
    (hp : (p : Int) ∉ ps.map Prod.fst) :
    (applyLefts shapes ps).getD p default = shapes.getD p default := by
  induction ps generalizing shapes with
  | nil => rfl
  | cons q ps ih =>
      show (applyLefts (setLeftAt shapes q.1 q.2) ps).getD p default = _
      rw [ih (setLeftAt shapes q.1 q.2) (fun h => hp (List.mem_cons_of_mem _ h)),
        setLeftAt_getD_ne shapes q.1 q.2 p (fun h => hp (h ▸ List.mem_cons_self _ _))]

theorem applyTops_getD_not_mem (ps : List (Int × Int)) (shapes : List Shape) (p : Nat)
    (hp : (p : Int) ∉ ps.map Prod.fst) :
    (applyTops shapes ps).getD p default = shapes.getD p default := by
  induction ps generalizing shapes with
  | nil => rfl
  | cons q ps ih =>
      show (applyTops (setTopAt shapes q.1 q.2) ps).getD p default = _
      rw [ih (setTopAt shapes q.1 q.2) (fun h => hp (List.mem_cons_of_mem _ h)),
        setTopAt_getD_ne shapes q.1 q.2 p (fun h => hp (h ▸ List.mem_cons_self _ _))]

theorem applyLefts_length (ps : List (Int × Int)) (shapes : List Shape) :
    (applyLefts shapes ps).length = shapes.length := by
  induction ps generalizing shapes with
  | nil => rfl
  | cons q ps ih =>
      show (applyLefts (setLeftAt shapes q.1 q.2) ps).length = _
      rw [ih (setLeftAt shapes q.1 q.2), setLeftAt_length]

theorem applyTops_length (ps : List (Int × Int)) (shapes : List Shape) :
    (applyTops shapes ps).length = shapes.length := by
  induction ps generalizing shapes with
  | nil => rfl
  | cons q ps ih =>
      show (applyTops (setTopAt shapes q.1 q.2) ps).length = _
      rw [ih (setTopAt shapes q.1 q.2), setTopAt_length]

theorem placeLefts_fst_mem (gap : ℚ) :
    ∀ (c : ℚ) (L : List (Shape × Int)) (x : Int),
      x ∈ (placeLefts gap c L).map Prod.fst → x ∈ L.map Prod.snd := by
  intro c L
  induction L generalizing c with
  | nil => intro x h; exact absurd h (by simp [placeLefts])
  | cons q L ih =>
      rintro x h
      rcases q with ⟨s, i⟩
      simp only [placeLefts, List.map_cons, List.mem_cons] at h ⊢
      rcases h with h | h
      · exact Or.inl h
      · exact Or.inr (ih _ x h)

theorem placeTops_fst_mem (gap : ℚ) :
    ∀ (c : ℚ) (L : List (Shape × Int)) (x : Int),
      x ∈ (placeTops gap c L).map Prod.fst → x ∈ L.map Prod.snd := by
  intro c L
  induction L generalizing c with
  | nil => intro x h; exact absurd h (by simp [placeTops])
  | cons q L ih =>
      rintro x h
      rcases q with ⟨s, i⟩
      simp only [placeTops, List.map_cons, List.mem_cons] at h ⊢
      rcases h with h | h
      · exact Or.inl h
      · exact Or.inr (ih _ x h)

theorem find?_none_bounds (idxs : List Int) (n : Nat)
    (h : idxs.find? (fun i => decide (i < 0 ∨ i ≥ (n : Int))) = none) :
    ∀ i ∈ idxs, 0 ≤ i ∧ i < (n : Int) := by
  rw [List.find?_eq_none] at h
  intro i hi
  have := h i hi
  simp only [decide_eq_true_eq] at this
  omega

/-! ### Unfolding lemmas for `align_shapes` and `distribute_shapes_evenly` -/

theorem align_shapes_ok_inv (slide_shapes : List Shape) (shape_indices : List Int)
    (ty : String) (r : AlignResult)
    (hr : align_shapes slide_shapes shape_indices ty = .ok r) :
    shape_indices.find? (fun i => decide (i < 0 ∨ i ≥ (slide_shapes.length : Int))) = none ∧
    ¬ shape_indices.length < 2 := by
  cases hfind : shape_indices.find?
      (fun i => decide (i < 0 ∨ i ≥ (slide_shapes.length : Int))) with
  | some i =>
      simp only [align_shapes, hfind] at hr
      exact absurd hr (by simp)
  | none =>
      refine ⟨rfl, fun hlen => ?_⟩
      simp only [align_shapes, hfind] at hr
      rw [if_pos hlen] at hr
      exact absurd hr (by simp)

theorem distribute_ok_inv (slide_shapes : List Shape) (shape_indices : List Int)
    (dir : String) (r : DistributeResult)
    (hr : distribute_shapes_evenly slide_shapes shape_indices dir = .ok r) :
    shape_indices.find? (fun i => decide (i < 0 ∨ i ≥ (slide_shapes.length : Int))) = none ∧
    ¬ shape_indices.length < 3 := by
  cases hfind : shape_indices.find?
      (fun i => decide (i < 0 ∨ i ≥ (slide_shapes.length : Int))) with
  | some i =>
      simp only [distribute_shapes_evenly, hfind] at hr
      exact absurd hr (by simp)
  | none =>
      refine ⟨rfl, fun hlen => ?_⟩
      simp only [distribute_shapes_evenly, hfind] at hr
      rw [if_pos hlen] at hr
      exact absurd hr (by simp)

theorem align_left_eq (slide_shapes : List Shape) (shape_indices : List Int)
    (hfind : shape_indices.find?
      (fun i => decide (i < 0 ∨ i ≥ (slide_shapes.length : Int))) = none)
    (hlen : ¬ shape_indices.length < 2) :
    align_shapes slide_shapes shape_indices "left" =
      .ok { shapes := updateSelected slide_shapes shape_indices (fun s =>
              { s with left := (((shape_indices.map
                  (fun i => slide_shapes.getD i.toNat default)).map Shape.left).min?).getD 0 }),
            alignment_type := "left", shape_indices := shape_indices } := by
  simp only [align_shapes, hfind]
  rw [if_neg hlen, if_neg (by decide), if_neg (by decide), if_neg (by decide), if_pos trivial]

theorem align_right_eq (slide_shapes : List Shape) (shape_indices : List Int)
    (hfind : shape_indices.find?
      (fun i => decide (i < 0 ∨ i ≥ (slide_shapes.length : Int))) = none)
    (hlen : ¬ shape_indices.length < 2) :
    align_shapes slide_shapes shape_indices "right" =
      .ok { shapes := updateSelected slide_shapes shape_indices (fun s =>
              { s with left := (((shape_indices.map
                  (fun i => slide_shapes.getD i.toNat default)).map
                    (fun s => s.left + s.width)).max?).getD 0 - s.width }),
            alignment_type := "right", shape_indices := shape_indices } := by
  simp only [align_shapes, hfind]
  rw [if_neg hlen, if_neg (by decide), if_neg (by decide), if_neg (by decide),
    if_neg (by decide), if_pos trivial]

theorem align_top_eq (slide_shapes : List Shape) (shape_indices : List Int)
    (hfind : shape_indices.find?
      (fun i => decide (i < 0 ∨ i ≥ (slide_shapes.length : Int))) = none)
    (hlen : ¬ shape_indices.length < 2) :
    align_shapes slide_shapes shape_indices "top" =
      .ok { shapes := updateSelected slide_shapes shape_indices (fun s =>
              { s with top := (((shape_indices.map
                  (fun i => slide_shapes.getD i.toNat default)).map Shape.top).min?).getD 0 }),
            alignment_type := "top", shape_indices := shape_indices } := by
  simp only [align_shapes, hfind]
  rw [if_neg hlen, if_neg (by decide), if_pos trivial]

theorem align_bottom_eq (slide_shapes : List Shape) (shape_indices : List Int)
    (hfind : shape_indices.find?
      (fun i => decide (i < 0 ∨ i ≥ (slide_shapes.length : Int))) = none)
    (hlen : ¬ shape_indices.length < 2) :
    align_shapes slide_shapes shape_indices "bottom" =
      .ok { shapes := updateSelected slide_shapes shape_indices (fun s =>
              { s with top := (((shape_indices.map
                  (fun i => slide_shapes.getD i.toNat default)).map
                    (fun s => s.top + s.height)).max?).getD 0 - s.height }),
            alignment_type := "bottom", shape_indices := shape_indices } := by
  simp only [align_shapes, hfind]
  rw [if_neg hlen, if_neg (by decide), if_neg (by decide), if_pos trivial]

theorem align_center_horizontal_eq (slide_shapes : List Shape) (shape_indices : List Int)
    (hfind : shape_indices.find?
      (fun i => decide (i < 0 ∨ i ≥ (slide_shapes.length : Int))) = none)
    (hlen : ¬ shape_indices.length < 2) :
    align_shapes slide_shapes shape_indices "center_horizontal" =
      .ok { shapes := updateSelected slide_shapes shape_indices (fun s =>
              { s with left := ratTrunc ((((shape_indices.map
                  (fun i => slide_shapes.getD i.toNat default)).map
                  (fun s => (s.left : ℚ) + (s.width : ℚ) / 2)).sum /
                  ((shape_indices.map (fun i => slide_shapes.getD i.toNat default)).length : ℚ)) -
                  (s.width : ℚ) / 2) }),
            alignment_type := "center_horizontal", shape_indices := shape_indices } := by
  simp only [align_shapes, hfind]
  rw [if_neg hlen, if_neg (by decide), if_neg (by decide), if_neg (by decide),
    if_neg (by decide), if_neg (by decide), if_pos trivial]

theorem align_center_eq (slide_shapes : List Shape) (shape_indices : List Int)
    (hfind : shape_indices.find?
      (fun i => decide (i < 0 ∨ i ≥ (slide_shapes.length : Int))) = none)
    (hlen : ¬ shape_indices.length < 2) :
    align_shapes slide_shapes shape_indices "center" =
      .ok { shapes := updateSelected slide_shapes shape_indices (fun s =>
              { s with
                left := ratTrunc ((((shape_indices.map
                  (fun i => slide_shapes.getD i.toNat default)).map
                  (fun s => (s.left : ℚ) + (s.width : ℚ) / 2)).sum /
                  ((shape_indices.map (fun i => slide_shapes.getD i.toNat default)).length : ℚ)) -
                  (s.width : ℚ) / 2),
                top := ratTrunc ((((shape_indices.map
                  (fun i => slide_shapes.getD i.toNat default)).map
                  (fun s => (s.top : ℚ) + (s.height : ℚ) / 2)).sum /
                  ((shape_indices.map (fun i => slide_shapes.getD i.toNat default)).length : ℚ)) -
                  (s.height : ℚ) / 2) }),
            alignment_type := "center", shape_indices := shape_indices } := by
  simp only [align_shapes, hfind]
  rw [if_neg hlen, if_neg (by decide), if_neg (by decide), if_neg (by decide),
    if_neg (by decide), if_neg (by decide), if_neg (by decide), if_neg (by decide)]

theorem distribute_horizontal_exists (slide_shapes : List Shape) (shape_indices : List Int)
    (hfind : shape_indices.find?
      (fun i => decide (i < 0 ∨ i ≥ (slide_shapes.length : Int))) = none)
    (hlen : ¬ shape_indices.length < 3) :
    ∃ gap c : ℚ, distribute_shapes_evenly slide_shapes shape_indices "horizontal" =
      .ok { shapes := applyLefts slide_shapes (placeLefts gap c
              ((shape_indices.map (fun i => (slide_shapes.getD i.toNat default, i))).insertionSort
                (fun x y => x.1.left ≤ y.1.left))),
            direction := "horizontal", shape_indices := shape_indices } := by
  simp only [distribute_shapes_evenly, hfind]
  rw [if_neg hlen, if_neg (by decide), if_pos trivial]
  exact ⟨_, _, rfl⟩

theorem distribute_vertical_exists (slide_shapes : List Shape) (shape_indices : List Int)
    (hfind : shape_indices.find?
      (fun i => decide (i < 0 ∨ i ≥ (slide_shapes.length : Int))) = none)
    (hlen : ¬ shape_indices.length < 3) :
    ∃ gap c : ℚ, distribute_shapes_evenly slide_shapes shape_indices "vertical" =
      .ok { shapes := applyTops slide_shapes (placeTops gap c
              ((shape_indices.map (fun i => (slide_shapes.getD i.toNat default, i))).insertionSort
                (fun x y => x.1.top ≤ y.1.top))),
            direction := "vertical", shape_indices := shape_indices } := by
  simp only [distribute_shapes_evenly, hfind]
  rw [if_neg hlen, if_neg (by decide), if_neg (by decide)]
  exact ⟨_, _, rfl⟩

/-- **C8**: `align("left")` sets every selected shape's left to the minimum
pre-alignment left of the selected shapes; `align("center_horizontal")`
computes the mean of the selected shapes' horizontal centers once and sets
each left to (the truncation of) `mean - width/2`, preserving widths;
`align("center")` applies both center rules with the two means computed once
from the pre-alignment state. -/
theorem align_shapes_spec (slide_shapes : List Shape) (shape_indices : List Int) :
    (∀ r : AlignResult, align_shapes slide_shapes shape_indices "left" = .ok r →
      ∃ m : Int,
        (shape_indices.map (fun i => (slide_shapes.getD i.toNat default).left)).min? = some m ∧
        (∀ i ∈ shape_indices, (r.shapes.getD i.toNat default).left = m) ∧
        (∀ i ∈ shape_indices, m ≤ (slide_shapes.getD i.toNat default).left) ∧
        (∃ i ∈ shape_indices, (slide_shapes.getD i.toNat default).left = m)) ∧
    (∀ r : AlignResult, align_shapes slide_shapes shape_indices "center_horizontal" = .ok r →
      ∀ i ∈ shape_indices,
        (r.shapes.getD i.toNat default).left =
          ratTrunc (((shape_indices.map (fun j => ((slide_shapes.getD j.toNat default).left : ℚ) +
              ((slide_shapes.getD j.toNat default).width : ℚ) / 2)).sum /
            (shape_indices.length : ℚ)) - ((slide_shapes.getD i.toNat default).width : ℚ) / 2) ∧
        (r.shapes.getD i.toNat default).width = (slide_shapes.getD i.toNat default).width) ∧
    (∀ r : AlignResult, align_shapes slide_shapes shape_indices "center" = .ok r →
      ∀ i ∈ shape_indices,
        (r.shapes.getD i.toNat default).left =
          ratTrunc (((shape_indices.map (fun j => ((slide_shapes.getD j.toNat default).left : ℚ) +
              ((slide_shapes.getD j.toNat default).width : ℚ) / 2)).sum /
            (shape_indices.length : ℚ)) - ((slide_shapes.getD i.toNat default).width : ℚ) / 2) ∧
        (r.shapes.getD i.toNat default).top =
          ratTrunc (((shape_indices.map (fun j => ((slide_shapes.getD j.toNat default).top : ℚ) +
              ((slide_shapes.getD j.toNat default).height : ℚ) / 2)).sum /
            (shape_indices.length : ℚ)) - ((slide_shapes.getD i.toNat default).height : ℚ) / 2) ∧
        (r.shapes.getD i.toNat default).width = (slide_shapes.getD i.toNat default).width ∧
        (r.shapes.getD i.toNat default).height =
          (slide_shapes.getD i.toNat default).height) := by
  have hmapmap : ∀ g : Shape → Int,
      ((shape_indices.map (fun i => slide_shapes.getD i.toNat default)).map g) =
        shape_indices.map (fun i => g (slide_shapes.getD i.toNat default)) := by
    intro g
    rw [List.map_map]
    rfl
  have hmapmapq : ∀ g : Shape → ℚ,
      ((shape_indices.map (fun i => slide_shapes.getD i.toNat default)).map g) =
        shape_indices.map (fun i => g (slide_shapes.getD i.toNat default)) := by
    intro g
    rw [List.map_map]
    rfl
  have hlenmap : ((shape_indices.map (fun i => slide_shapes.getD i.toNat default)).length : ℚ) =
      (shape_indices.length : ℚ) := by
    rw [List.length_map]
  refine ⟨?_, ?_, ?_⟩
  · intro r hr
    obtain ⟨hfind, hlen⟩ := align_shapes_ok_inv _ _ _ _ hr
    have hbounds := find?_none_bounds shape_indices slide_shapes.length hfind
    rw [align_left_eq slide_shapes shape_indices hfind hlen] at hr
    injection hr with hr'
    subst hr'
    cases hmin : (((shape_indices.map (fun i => slide_shapes.getD i.toNat default)).map
        Shape.left).min?) with
    | none =>
        rw [List.min?_eq_none_iff] at hmin
        simp only [List.map_eq_nil_iff] at hmin
        rw [hmin] at hlen
        exact absurd (by simp : ([] : List Int).length < 2) hlen
    | some m =>
        refine ⟨m, by rw [← hmapmap Shape.left]; exact hmin, ?_, ?_, ?_⟩
        · intro i hi
          dsimp only
          rw [updateSelected_getD_mem slide_shapes shape_indices _ i hi (hbounds i hi).1
            (by have := hbounds i hi; omega)]
          rfl
        · intro i hi
          have harg : ∀ a b c : Int, a ≤ min b c ↔ a ≤ b ∧ a ≤ c := fun a b c => le_min_iff
          have hle := (List.le_min?_iff harg hmin).1 (le_refl m)
          exact hle _ (by
            rw [hmapmap Shape.left]
            exact List.mem_map.mpr ⟨i, hi, rfl⟩)
        · have hchoice : ∀ a b : Int, min a b = a ∨ min a b = b := fun a b => min_choice a b
          have hm := List.min?_mem hchoice hmin
          rw [hmapmap Shape.left] at hm
          obtain ⟨i, hi, hmi⟩ := List.mem_map.mp hm
          exact ⟨i, hi, hmi⟩
  · intro r hr
    obtain ⟨hfind, hlen⟩ := align_shapes_ok_inv _ _ _ _ hr
    have hbounds := find?_none_bounds shape_indices slide_shapes.length hfind
    rw [align_center_horizontal_eq slide_shapes shape_indices hfind hlen] at hr
    injection hr with hr'
    subst hr'
    intro i hi
    constructor
    · show ((updateSelected slide_shapes shape_indices _).getD i.toNat default).left = _
      rw [updateSelected_getD_mem slide_shapes shape_indices _ i hi (hbounds i hi).1
        (by have := hbounds i hi; omega)]
      show ratTrunc _ = ratTrunc _
      rw [hmapmapq (fun s => (s.left : ℚ) + (s.width : ℚ) / 2), hlenmap]
    · dsimp only
      apply updateSelected_getD_field slide_shapes shape_indices _ Shape.width
      intro s
      rfl
  · intro r hr
    obtain ⟨hfind, hlen⟩ := align_shapes_ok_inv _ _ _ _ hr
    have hbounds := find?_none_bounds shape_indices slide_shapes.length hfind
    rw [align_center_eq slide_shapes shape_indices hfind hlen] at hr
    injection hr with hr'
    subst hr'
    intro i hi
    refine ⟨?_, ?_, ?_, ?_⟩
    · show ((updateSelected slide_shapes shape_indices _).getD i.toNat default).left = _
      rw [updateSelected_getD_mem slide_shapes shape_indices _ i hi (hbounds i hi).1
        (by have := hbounds i hi; omega)]
      show ratTrunc _ = ratTrunc _
      rw [hmapmapq (fun s => (s.left : ℚ) + (s.width : ℚ) / 2), hlenmap]
    · show ((updateSelected slide_shapes shape_indices _).getD i.toNat default).top = _
      rw [updateSelected_getD_mem slide_shapes shape_indices _ i hi (hbounds i hi).1
        (by have := hbounds i hi; omega)]
      show ratTrunc _ = ratTrunc _
      rw [hmapmapq (fun s => (s.top : ℚ) + (s.height : ℚ) / 2), hlenmap]
    · dsimp only
      apply updateSelected_getD_field slide_shapes shape_indices _ Shape.width
      intro s
      rfl
    · dsimp only
      apply updateSelected_getD_field slide_shapes shape_indices _ Shape.height
      intro s
      rfl

/-- Concrete check of `align_shapes_spec`: left-aligning two shapes with
lefts 914400 and 0 moves both to 0. -/
theorem align_shapes_spec_witness :
    (align_shapes [⟨914400, 0, 914400, 914400⟩, ⟨0, 914400, 914400, 914400⟩] [0, 1] "left" =
      .ok { shapes := [⟨0, 0, 914400, 914400⟩, ⟨0, 914400, 914400, 914400⟩],
            alignment_type := "left", shape_indices := [0, 1] }) ∧
    (∃ m : Int,
      (([0, 1] : List Int).map (fun i =>
        (([⟨914400, 0, 914400, 914400⟩, ⟨0, 914400, 914400, 914400⟩] : List Shape).getD
          i.toNat default).left)).min? = some m ∧
      (∀ i ∈ ([0, 1] : List Int),
        ((({ shapes := [⟨0, 0, 914400, 914400⟩, ⟨0, 914400, 914400, 914400⟩],
             alignment_type := "left", shape_indices := [0, 1] } : AlignResult)).shapes.getD
          i.toNat default).left = m) ∧
      (∀ i ∈ ([0, 1] : List Int),
        m ≤ (([⟨914400, 0, 914400, 914400⟩, ⟨0, 914400, 914400, 914400⟩] : List Shape).getD
          i.toNat default).left) ∧
      (∃ i ∈ ([0, 1] : List Int),
        (([⟨914400, 0, 914400, 914400⟩, ⟨0, 914400, 914400, 914400⟩] : List Shape).getD
          i.toNat default).left = m)) :=
  ⟨by decide,
    (align_shapes_spec [⟨914400, 0, 914400, 914400⟩, ⟨0, 914400, 914400, 914400⟩] [0, 1]).1
      _ (by decide)⟩

/-- **C10**: distribution and edge alignment write only the chosen axis:
`align("top"/"bottom")` changes only tops of selected shapes,
`align("left"/"right")` only lefts, `distribute("horizontal")` only lefts,
`distribute("vertical")` only tops; widths and heights of every shape, the
cross-axis coordinate of every moved shape, and every shape not listed in
`shape_indices` are unchanged (and the shape count is preserved). -/
theorem geometry_write_frame (slide_shapes : List Shape) (shape_indices : List Int) :
    (∀ r : AlignResult, align_shapes slide_shapes shape_indices "top" = .ok r →
      r.shapes.length = slide_shapes.length ∧
      ∀ p : Nat,
        (r.shapes.getD p default).left = (slide_shapes.getD p default).left ∧
        (r.shapes.getD p default).width = (slide_shapes.getD p default).width ∧
        (r.shapes.getD p default).height = (slide_shapes.getD p default).height ∧
        ((p : Int) ∉ shape_indices →
          (r.shapes.getD p default).top = (slide_shapes.getD p default).top)) ∧
    (∀ r : AlignResult, align_shapes slide_shapes shape_indices "bottom" = .ok r →
      r.shapes.length = slide_shapes.length ∧
      ∀ p : Nat,
        (r.shapes.getD p default).left = (slide_shapes.getD p default).left ∧
        (r.shapes.getD p default).width = (slide_shapes.getD p default).width ∧
        (r.shapes.getD p default).height = (slide_shapes.getD p default).height ∧
        ((p : Int) ∉ shape_indices →
          (r.shapes.getD p default).top = (slide_shapes.getD p default).top)) ∧
    (∀ r : AlignResult, align_shapes slide_shapes shape_indices "left" = .ok r →
      r.shapes.length = slide_shapes.length ∧
      ∀ p : Nat,
        (r.shapes.getD p default).top = (slide_shapes.getD p default).top ∧
        (r.shapes.getD p default).width = (slide_shapes.getD p default).width ∧
        (r.shapes.getD p default).height = (slide_shapes.getD p default).height ∧
        ((p : Int) ∉ shape_indices →
          (r.shapes.getD p default).left = (slide_shapes.getD p default).left)) ∧
    (∀ r : AlignResult, align_shapes slide_shapes shape_indices "right" = .ok r →
      r.shapes.length = slide_shapes.length ∧
      ∀ p : Nat,
        (r.shapes.getD p default).top = (slide_shapes.getD p default).top ∧
        (r.shapes.getD p default).width = (slide_shapes.getD p default).width ∧
        (r.shapes.getD p default).height = (slide_shapes.getD p default).height ∧
        ((p : Int) ∉ shape_indices →
          (r.shapes.getD p default).left = (slide_shapes.getD p default).left)) ∧
    (∀ r : DistributeResult,
      distribute_shapes_evenly slide_shapes shape_indices "horizontal" = .ok r →
      r.shapes.length = slide_shapes.length ∧
      ∀ p : Nat,
        (r.shapes.getD p default).top = (slide_shapes.getD p default).top ∧
        (r.shapes.getD p default).width = (slide_shapes.getD p default).width ∧
        (r.shapes.getD p default).height = (slide_shapes.getD p default).height ∧
        ((p : Int) ∉ shape_indices →
          (r.shapes.getD p default).left = (slide_shapes.getD p default).left)) ∧
    (∀ r : DistributeResult,
      distribute_shapes_evenly slide_shapes shape_indices "vertical" = .ok r →
      r.shapes.length = slide_shapes.length ∧
      ∀ p : Nat,
        (r.shapes.getD p default).left = (slide_shapes.getD p default).left ∧
        (r.shapes.getD p default).width = (slide_shapes.getD p default).width ∧
        (r.shapes.getD p default).height = (slide_shapes.getD p default).height ∧
        ((p : Int) ∉ shape_indices →
          (r.shapes.getD p default).top = (slide_shapes.getD p default).top)) := by
  refine ⟨?_, ?_, ?_, ?_, ?_, ?_⟩
  · intro r hr
    obtain ⟨hfind, hlen⟩ := align_shapes_ok_inv _ _ _ _ hr
    rw [align_top_eq slide_shapes shape_indices hfind hlen] at hr
    injection hr with hr'
    subst hr'
    refine ⟨by dsimp only; exact updateSelected_length _ _ _, fun p => ⟨?_, ?_, ?_, ?_⟩⟩
    · dsimp only
      apply updateSelected_getD_field slide_shapes shape_indices _ Shape.left
      intro s
      rfl
    · dsimp only
      apply updateSelected_getD_field slide_shapes shape_indices _ Shape.width
      intro s
      rfl
    · dsimp only
      apply updateSelected_getD_field slide_shapes shape_indices _ Shape.height
      intro s
      rfl
    · intro hp
      dsimp only
      rw [updateSelected_getD_not_mem slide_shapes shape_indices _ p hp]
  · intro r hr
    obtain ⟨hfind, hlen⟩ := align_shapes_ok_inv _ _ _ _ hr
    rw [align_bottom_eq slide_shapes shape_indices hfind hlen] at hr
    injection hr with hr'
    subst hr'
    refine ⟨by dsimp only; exact updateSelected_length _ _ _, fun p => ⟨?_, ?_, ?_, ?_⟩⟩
    · dsimp only
      apply updateSelected_getD_field slide_shapes shape_indices _ Shape.left
      intro s
      rfl
    · dsimp only
      apply updateSelected_getD_field slide_shapes shape_indices _ Shape.width
      intro s
      rfl
    · dsimp only
      apply updateSelected_getD_field slide_shapes shape_indices _ Shape.height
      intro s
      rfl
    · intro hp
      dsimp only
      rw [updateSelected_getD_not_mem slide_shapes shape_indices _ p hp]
  · intro r hr
    obtain ⟨hfind, hlen⟩ := align_shapes_ok_inv _ _ _ _ hr
    rw [align_left_eq slide_shapes shape_indices hfind hlen] at hr
    injection hr with hr'
    subst hr'
    refine ⟨by dsimp only; exact updateSelected_length _ _ _, fun p => ⟨?_, ?_, ?_, ?_⟩⟩
    · dsimp only
      apply updateSelected_getD_field slide_shapes shape_indices _ Shape.top
      intro s
      rfl
    · dsimp only
      apply updateSelected_getD_field slide_shapes shape_indices _ Shape.width
      intro s
      rfl
    · dsimp only
      apply updateSelected_getD_field slide_shapes shape_indices _ Shape.height
      intro s
      rfl
    · intro hp
      dsimp only
      rw [updateSelected_getD_not_mem slide_shapes shape_indices _ p hp]
  · intro r hr
    obtain ⟨hfind, hlen⟩ := align_shapes_ok_inv _ _ _ _ hr
    rw [align_right_eq slide_shapes shape_indices hfind hlen] at hr
    injection hr with hr'
    subst hr'
    refine ⟨by dsimp only; exact updateSelected_length _ _ _, fun p => ⟨?_, ?_, ?_, ?_⟩⟩
    · dsimp only
      apply updateSelected_getD_field slide_shapes shape_indices _ Shape.top
      intro s
      rfl
    · dsimp only
      apply updateSelected_getD_field slide_shapes shape_indices _ Shape.width
      intro s
      rfl
    · dsimp only
      apply updateSelected_getD_field slide_shapes shape_indices _ Shape.height
      intro s
      rfl
    · intro hp
      dsimp only
      rw [updateSelected_getD_not_mem slide_shapes shape_indices _ p hp]
  · intro r hr
    obtain ⟨hfind, hlen⟩ := distribute_ok_inv _ _ _ _ hr
    obtain ⟨gap, c, heq⟩ := distribute_horizontal_exists slide_shapes shape_indices hfind hlen
    rw [heq] at hr
    injection hr with hr'
    subst hr'
    refine ⟨by dsimp only; exact applyLefts_length _ _, fun p => ⟨?_, ?_, ?_, ?_⟩⟩
    · dsimp only
      apply applyLefts_getD_field
      intro s w
      rfl
    · dsimp only
      apply applyLefts_getD_field
      intro s w
      rfl
    · dsimp only
      apply applyLefts_getD_field
      intro s w
      rfl
    · intro hp
      dsimp only
      have hsub : (p : Int) ∉ (placeLefts gap c
          ((shape_indices.map (fun i => (slide_shapes.getD i.toNat default, i))).insertionSort
            (fun x y => x.1.left ≤ y.1.left))).map Prod.fst := by
        intro hmem
        have h1 := placeLefts_fst_mem gap c _ _ hmem
        obtain ⟨pair, hpair, hps⟩ := List.mem_map.mp h1
        have h2 := (List.mem_insertionSort _).mp hpair
        obtain ⟨i, hi, hpi⟩ := List.mem_map.mp h2
        apply hp
        rw [← hps, ← hpi]
        exact hi
      rw [applyLefts_getD_not_mem _ _ _ hsub]
  · intro r hr
    obtain ⟨hfind, hlen⟩ := distribute_ok_inv _ _ _ _ hr
    obtain ⟨gap, c, heq⟩ := distribute_vertical_exists slide_shapes shape_indices hfind hlen
    rw [heq] at hr
    injection hr with hr'
    subst hr'
    refine ⟨by dsimp only; exact applyTops_length _ _, fun p => ⟨?_, ?_, ?_, ?_⟩⟩
    · dsimp only
      apply applyTops_getD_field
      intro s w
      rfl
    · dsimp only
      apply applyTops_getD_field
      intro s w
      rfl
    · dsimp only
      apply applyTops_getD_field
      intro s w
      rfl
    · intro hp
      dsimp only
      have hsub : (p : Int) ∉ (placeTops gap c
          ((shape_indices.map (fun i => (slide_shapes.getD i.toNat default, i))).insertionSort
            (fun x y => x.1.top ≤ y.1.top))).map Prod.fst := by
        intro hmem
        have h1 := placeTops_fst_mem gap c _ _ hmem
        obtain ⟨pair, hpair, hps⟩ := List.mem_map.mp h1
        have h2 := (List.mem_insertionSort _).mp hpair
        obtain ⟨i, hi, hpi⟩ := List.mem_map.mp h2
        apply hp
        rw [← hps, ← hpi]
        exact hi
      rw [applyTops_getD_not_mem _ _ _ hsub]

/-- Concrete check of `geometry_write_frame`: top-aligning shapes 0 and 1 of a
three-shape slide leaves lefts, sizes, and the unselected shape 2 unchanged. -/
theorem geometry_write_frame_witness :
    (align_shapes
      [⟨0, 914400, 914400, 914400⟩, ⟨914400, 0, 914400, 914400⟩, ⟨0, 0, 100, 100⟩]
      [0, 1] "top" =
      .ok { shapes := [⟨0, 0, 914400, 914400⟩, ⟨914400, 0, 914400, 914400⟩, ⟨0, 0, 100, 100⟩],
            alignment_type := "top", shape_indices := [0, 1] }) ∧
    ((({ shapes := [⟨0, 0, 914400, 914400⟩, ⟨914400, 0, 914400, 914400⟩, ⟨0, 0, 100, 100⟩],
         alignment_type := "top", shape_indices := [0, 1] } : AlignResult)).shapes.length =
      ([⟨0, 914400, 914400, 914400⟩, ⟨914400, 0, 914400, 914400⟩, ⟨0, 0, 100, 100⟩] :
        List Shape).length ∧
      ∀ p : Nat,
        ((({ shapes := [⟨0, 0, 914400, 914400⟩, ⟨914400, 0, 914400, 914400⟩, ⟨0, 0, 100, 100⟩],
             alignment_type := "top", shape_indices := [0, 1] } : AlignResult)).shapes.getD
          p default).left =
          (([⟨0, 914400, 914400, 914400⟩, ⟨914400, 0, 914400, 914400⟩, ⟨0, 0, 100, 100⟩] :
            List Shape).getD p default).left ∧
        ((({ shapes := [⟨0, 0, 914400, 914400⟩, ⟨914400, 0, 914400, 914400⟩, ⟨0, 0, 100, 100⟩],
             alignment_type := "top", shape_indices := [0, 1] } : AlignResult)).shapes.getD
          p default).width =
          (([⟨0, 914400, 914400, 914400⟩, ⟨914400, 0, 914400, 914400⟩, ⟨0, 0, 100, 100⟩] :
            List Shape).getD p default).width ∧
        ((({ shapes := [⟨0, 0, 914400, 914400⟩, ⟨914400, 0, 914400, 914400⟩, ⟨0, 0, 100, 100⟩],
             alignment_type := "top", shape_indices := [0, 1] } : AlignResult)).shapes.getD
          p default).height =
          (([⟨0, 914400, 914400, 914400⟩, ⟨914400, 0, 914400, 914400⟩, ⟨0, 0, 100, 100⟩] :
            List Shape).getD p default).height ∧
        ((p : Int) ∉ ([0, 1] : List Int) →
          ((({ shapes := [⟨0, 0, 914400, 914400⟩, ⟨914400, 0, 914400, 914400⟩,
               ⟨0, 0, 100, 100⟩],
               alignment_type := "top", shape_indices := [0, 1] } : AlignResult)).shapes.getD
            p default).top =
            (([⟨0, 914400, 914400, 914400⟩, ⟨914400, 0, 914400, 914400⟩, ⟨0, 0, 100, 100⟩] :
              List Shape).getD p default).top)) :=
  ⟨by decide,
    (geometry_write_frame
      [⟨0, 914400, 914400, 914400⟩, ⟨914400, 0, 914400, 914400⟩, ⟨0, 0, 100, 100⟩] [0, 1]).1
      _ (by decide)⟩

/-! ### Distribution over three shapes -/

theorem ratTrunc_intCast (n : Int) : ratTrunc ((n : Int) : ℚ) = n := by
  unfold ratTrunc
  split_ifs
  · rw [Int.ceil_intCast]
  · rw [Int.floor_intCast]

theorem applyLefts_placeLefts3 (a b c : Shape) (g cur : ℚ) :
    applyLefts [a, b, c] (placeLefts g cur [(a, 0), (b, 1), (c, 2)]) =
      [ { a with left := ratTrunc cur },
        { b with left := ratTrunc (cur + (a.width : ℚ) + g) },
        { c with left := ratTrunc (cur + (a.width : ℚ) + g + (b.width : ℚ) + g) } ] := rfl

/-- The core computation of `distribute_shapes_evenly` on a slide holding
exactly three shapes selected in increasing-left order: the first keeps its
left edge, the others are placed at the truncated cursor positions
`leftmost + w0 + gap` and `leftmost + w0 + gap + w1 + gap` with
`gap = (span - occupied) / 2` (possibly negative). -/
theorem distribute3_horizontal (s0 s1 s2 : Shape)
    (h01 : s0.left ≤ s1.left) (h12 : s1.left ≤ s2.left) :
    distribute_shapes_evenly [s0, s1, s2] [0, 1, 2] "horizontal" =
      .ok { shapes := [
          { s0 with left := ratTrunc (s0.left : ℚ) },
          { s1 with left := ratTrunc ((s0.left : ℚ) + (s0.width : ℚ) +
              (((s2.left : ℚ) + (s2.width : ℚ) - (s0.left : ℚ)) -
                ((s0.width : ℚ) + (s1.width : ℚ) + (s2.width : ℚ))) / 2) },
          { s2 with left := ratTrunc ((s0.left : ℚ) + (s0.width : ℚ) +
              (((s2.left : ℚ) + (s2.width : ℚ) - (s0.left : ℚ)) -
                ((s0.width : ℚ) + (s1.width : ℚ) + (s2.width : ℚ))) / 2 + (s1.width : ℚ) +
              (((s2.left : ℚ) + (s2.width : ℚ) - (s0.left : ℚ)) -
                ((s0.width : ℚ) + (s1.width : ℚ) + (s2.width : ℚ))) / 2) } ],
            direction := "horizontal", shape_indices := [0, 1, 2] } := by
  have hfind : ([0, 1, 2] : List Int).find?
      (fun i => decide (i < 0 ∨ i ≥ (([s0, s1, s2] : List Shape).length : Int))) = none := by
    rw [List.find?_eq_none]
    intro x hx
    simp only [List.mem_cons, List.not_mem_nil, or_false] at hx
    have h3 : (([s0, s1, s2] : List Shape).length : Int) = 3 := by simp
    simp only [decide_eq_true_eq, h3]
    rcases hx with rfl | rfl | rfl <;> omega
  have hlen : ¬ ([0, 1, 2] : List Int).length < 3 := by decide
  have hsel : ([0, 1, 2] : List Int).map
      (fun i => (([s0, s1, s2] : List Shape).getD i.toNat default, i)) =
      [(s0, 0), (s1, 1), (s2, 2)] := rfl
  have hsorted : List.Pairwise (fun x y : Shape × Int => x.1.left ≤ y.1.left)
      [(s0, 0), (s1, 1), (s2, 2)] := by
    refine List.Pairwise.cons ?_ (List.Pairwise.cons ?_ (List.pairwise_singleton _ _))
    · intro b hb
      simp only [List.mem_cons, List.not_mem_nil, or_false] at hb
      rcases hb with rfl | rfl
      · exact h01
      · exact le_trans h01 h12
    · intro b hb
      simp only [List.mem_cons, List.not_mem_nil, or_false] at hb
      rcases hb with rfl
      exact h12
  simp only [distribute_shapes_evenly, hfind]
  rw [if_neg hlen, if_neg (by decide), if_pos trivial, hsel,
    List.Sorted.insertionSort_eq hsorted, applyLefts_placeLefts3]
  simp only [List.headD_cons, List.getLastD_cons, List.length_cons, List.length_nil,
    List.map_cons, List.map_nil, List.sum_cons, List.sum_nil]
  norm_num
  exact ⟨congrArg ratTrunc (by ring), congrArg ratTrunc (by ring)⟩

theorem applyLefts_placeLefts3_mid (a b c : Shape) (g cur : ℚ) :
    applyLefts [a, b, c] (placeLefts g cur [(b, 1), (a, 0), (c, 2)]) =
      [ { a with left := ratTrunc (cur + (b.width : ℚ) + g) },
        { b with left := ratTrunc cur },
        { c with left := ratTrunc (cur + (b.width : ℚ) + g + (a.width : ℚ) + g) } ] := rfl

/-- The core computation of `distribute_shapes_evenly` when the middle
selected shape has the strictly smallest left edge: the sort places it
first. -/
theorem distribute3_horizontal_mid (s0 s1 s2 : Shape)
    (h10 : s1.left < s0.left) (h02 : s0.left ≤ s2.left) :
    distribute_shapes_evenly [s0, s1, s2] [0, 1, 2] "horizontal" =
      .ok { shapes := [
          { s0 with left := ratTrunc ((s1.left : ℚ) + (s1.width : ℚ) +
              (((s2.left : ℚ) + (s2.width : ℚ) - (s1.left : ℚ)) -
                ((s1.width : ℚ) + (s0.width : ℚ) + (s2.width : ℚ))) / 2) },
          { s1 with left := ratTrunc (s1.left : ℚ) },
          { s2 with left := ratTrunc ((s1.left : ℚ) + (s1.width : ℚ) +
              (((s2.left : ℚ) + (s2.width : ℚ) - (s1.left : ℚ)) -
                ((s1.width : ℚ) + (s0.width : ℚ) + (s2.width : ℚ))) / 2 + (s0.width : ℚ) +
              (((s2.left : ℚ) + (s2.width : ℚ) - (s1.left : ℚ)) -
                ((s1.width : ℚ) + (s0.width : ℚ) + (s2.width : ℚ))) / 2) } ],
            direction := "horizontal", shape_indices := [0, 1, 2] } := by
  have hfind : ([0, 1, 2] : List Int).find?
      (fun i => decide (i < 0 ∨ i ≥ (([s0, s1, s2] : List Shape).length : Int))) = none := by
    rw [List.find?_eq_none]
    intro x hx
    simp only [List.mem_cons, List.not_mem_nil, or_false] at hx
    have h3 : (([s0, s1, s2] : List Shape).length : Int) = 3 := by simp
    simp only [decide_eq_true_eq, h3]
    rcases hx with rfl | rfl | rfl <;> omega
  have hlen : ¬ ([0, 1, 2] : List Int).length < 3 := by decide
  have hsel : ([0, 1, 2] : List Int).map
      (fun i => (([s0, s1, s2] : List Shape).getD i.toNat default, i)) =
      [(s0, 0), (s1, 1), (s2, 2)] := rfl
  have hsort : List.insertionSort (fun x y : Shape × Int => x.1.left ≤ y.1.left)
      [(s0, 0), (s1, 1), (s2, 2)] = [(s1, 1), (s0, 0), (s2, 2)] := by
    simp only [List.insertionSort, List.orderedInsert]
    rw [if_pos (show s1.left ≤ s2.left from le_trans h10.le h02)]
    simp only [List.orderedInsert]
    rw [if_neg (show ¬ s0.left ≤ s1.left from not_le.mpr h10),
      if_pos (show s0.left ≤ s2.left from h02)]
  simp only [distribute_shapes_evenly, hfind]
  rw [if_neg hlen, if_neg (by decide), if_pos trivial, hsel, hsort, applyLefts_placeLefts3_mid]
  simp only [List.headD_cons, List.getLastD_cons, List.length_cons, List.length_nil,
    List.map_cons, List.map_nil, List.sum_cons, List.sum_nil]
  norm_num
  exact ⟨congrArg ratTrunc (by ring), congrArg ratTrunc (by ring)⟩

/-- Counterexample to **C7** as stated: the three collinear, non-overlapping
shapes with lefts 0, 4, 9 and widths 2, 2, 2 (native units) give
`gap = 5/2`; truncating the cursor places them at 0, 4, 9, so the two
resulting gaps are 2 and 3 — not equal. -/
theorem distribute_equal_gaps_counterexample :
    distribute_shapes_evenly [⟨0, 0, 2, 1⟩, ⟨4, 0, 2, 1⟩, ⟨9, 0, 2, 1⟩] [0, 1, 2]
        "horizontal" =
      .ok { shapes := [⟨0, 0, 2, 1⟩, ⟨4, 0, 2, 1⟩, ⟨9, 0, 2, 1⟩],
            direction := "horizontal", shape_indices := [0, 1, 2] } ∧
    ¬ ((([⟨0, 0, 2, 1⟩, ⟨4, 0, 2, 1⟩, ⟨9, 0, 2, 1⟩] : List Shape).getD 1 default).left -
        ((([⟨0, 0, 2, 1⟩, ⟨4, 0, 2, 1⟩, ⟨9, 0, 2, 1⟩] : List Shape).getD 0 default).left +
          (([⟨0, 0, 2, 1⟩, ⟨4, 0, 2, 1⟩, ⟨9, 0, 2, 1⟩] : List Shape).getD 0 default).width) =
       (([⟨0, 0, 2, 1⟩, ⟨4, 0, 2, 1⟩, ⟨9, 0, 2, 1⟩] : List Shape).getD 2 default).left -
        ((([⟨0, 0, 2, 1⟩, ⟨4, 0, 2, 1⟩, ⟨9, 0, 2, 1⟩] : List Shape).getD 1 default).left +
          (([⟨0, 0, 2, 1⟩, ⟨4, 0, 2, 1⟩, ⟨9, 0, 2, 1⟩] : List Shape).getD 1 default).width)) := by
  constructor
  · rw [distribute3_horizontal ⟨0, 0, 2, 1⟩ ⟨4, 0, 2, 1⟩ ⟨9, 0, 2, 1⟩ (by decide) (by decide)]
    norm_num [ratTrunc]
  · decide

/-- Claim **C7** (amended): `distribute("horizontal")` over three selected
shapes sorts them by left edge (illustrated by the scrambled-input conjunct),
computes `gap = (span - occupied) / (count - 1)` where `span` runs from the
first sorted shape's left edge to the last one's right edge and `occupied` is
the sum of widths, accepts a negative gap rather than rejecting it (the last
conjunct places overlapping shapes at lefts 0, 1, 2 with gap −4), and walks a
cursor advanced by `width + gap`, truncating it with `int(...)` at each
placement; when `count − 1` divides `span − occupied` exactly — hypothesis
`hg` — the truncation is the identity and the two resulting gaps are equal to
the exact integer gap, but for a fractional gap the truncated placements can
make the two gaps differ (see `distribute_equal_gaps_counterexample`). -/
theorem distribute_three_spec (s0 s1 s2 : Shape) (g : Int)
    (h01 : s0.left ≤ s1.left) (h12 : s1.left ≤ s2.left)
    (hg : s2.left + s2.width - s0.left - (s0.width + s1.width + s2.width) = 2 * g) :
    (∃ r : DistributeResult,
      distribute_shapes_evenly [s0, s1, s2] [0, 1, 2] "horizontal" = .ok r ∧
      r.shapes = [ s0, { s1 with left := s0.left + s0.width + g },
                   { s2 with left := s0.left + s0.width + g + s1.width + g } ]) ∧
    (({ s1 with left := s0.left + s0.width + g } : Shape).left -
        (s0.left + s0.width) = g) ∧
    (({ s2 with left := s0.left + s0.width + g + s1.width + g } : Shape).left -
        (({ s1 with left := s0.left + s0.width + g } : Shape).left +
          ({ s1 with left := s0.left + s0.width + g } : Shape).width) = g) ∧
    (distribute_shapes_evenly [⟨4, 0, 2, 1⟩, ⟨0, 0, 3, 1⟩, ⟨9, 0, 2, 1⟩] [0, 1, 2]
        "horizontal" =
      .ok { shapes := [⟨5, 0, 2, 1⟩, ⟨0, 0, 3, 1⟩, ⟨9, 0, 2, 1⟩],
            direction := "horizontal", shape_indices := [0, 1, 2] }) ∧
    (distribute_shapes_evenly [⟨0, 0, 5, 1⟩, ⟨1, 0, 5, 1⟩, ⟨2, 0, 5, 1⟩] [0, 1, 2]
        "horizontal" =
      .ok { shapes := [⟨0, 0, 5, 1⟩, ⟨1, 0, 5, 1⟩, ⟨2, 0, 5, 1⟩],
            direction := "horizontal", shape_indices := [0, 1, 2] }) := by
  refine ⟨⟨_, distribute3_horizontal s0 s1 s2 h01 h12, ?_⟩,
      by dsimp only; ring, by dsimp only; ring, ?_, ?_⟩
  · have hgq : ((s2.left : ℚ) + (s2.width : ℚ) - (s0.left : ℚ)) -
        ((s0.width : ℚ) + (s1.width : ℚ) + (s2.width : ℚ)) = 2 * (g : ℚ) := by
      exact_mod_cast hg
    have e1 : (s0.left : ℚ) + (s0.width : ℚ) +
        (((s2.left : ℚ) + (s2.width : ℚ) - (s0.left : ℚ)) -
          ((s0.width : ℚ) + (s1.width : ℚ) + (s2.width : ℚ))) / 2 =
        ((s0.left + s0.width + g : Int) : ℚ) := by
      rw [hgq]
      push_cast
      ring
    have e2 : (s0.left : ℚ) + (s0.width : ℚ) +
        (((s2.left : ℚ) + (s2.width : ℚ) - (s0.left : ℚ)) -
          ((s0.width : ℚ) + (s1.width : ℚ) + (s2.width : ℚ))) / 2 + (s1.width : ℚ) +
        (((s2.left : ℚ) + (s2.width : ℚ) - (s0.left : ℚ)) -
          ((s0.width : ℚ) + (s1.width : ℚ) + (s2.width : ℚ))) / 2 =
        ((s0.left + s0.width + g + s1.width + g : Int) : ℚ) := by
      rw [hgq]
      push_cast
      ring
    dsimp only
    rw [e2, e1, ratTrunc_intCast, ratTrunc_intCast, ratTrunc_intCast]
  · rw [distribute3_horizontal_mid ⟨4, 0, 2, 1⟩ ⟨0, 0, 3, 1⟩ ⟨9, 0, 2, 1⟩
      (by decide) (by decide)]
    norm_num [ratTrunc]
  · rw [distribute3_horizontal ⟨0, 0, 5, 1⟩ ⟨1, 0, 5, 1⟩ ⟨2, 0, 5, 1⟩
      (by decide) (by decide)]
    norm_num [ratTrunc]

/-- Concrete check of `distribute_three_spec`: shapes at lefts 0, 4, 10 with
widths 2 leave 6 native units of free space, so the exact gap is the integer
3 and the distributed lefts are 0, 5, 10. -/
theorem distribute_three_spec_witness :
    ((0 : Int) ≤ 4) ∧ ((4 : Int) ≤ 10) ∧
    ((10 : Int) + 2 - 0 - (2 + 2 + 2) = 2 * 3) ∧
    (∃ r : DistributeResult,
      distribute_shapes_evenly [⟨0, 0, 2, 1⟩, ⟨4, 0, 2, 1⟩, ⟨10, 0, 2, 1⟩] [0, 1, 2]
          "horizontal" = .ok r ∧
      r.shapes = [⟨0, 0, 2, 1⟩, ⟨5, 0, 2, 1⟩, ⟨10, 0, 2, 1⟩]) := by
  refine ⟨by decide, by decide, by decide, ?_⟩
  obtain ⟨⟨r, hr, hs⟩, -, -, -, -⟩ :=
    distribute_three_spec ⟨0, 0, 2, 1⟩ ⟨4, 0, 2, 1⟩ ⟨10, 0, 2, 1⟩ 3
      (by decide) (by decide) (by decide)
  refine ⟨r, hr, ?_⟩
  rw [hs]
  decide

end Claims

end PPTX
